import Mathlib

/-!
# Verification of the open-data-quality validator

Shallow embedding of the `open_data_quality` Python package
(`models.py`, `csv_validator.py`, `metadata_validator.py`, `cli_csv.py`).

Modelling conventions:
* I/O and the embedded DuckDB engine are modelled by an environment record
  (`Env`, `AccessProbe`): each field holds the value the corresponding
  file-read or SQL query returns for the run under consideration.
  Sampled tabular data is a row-major grid of `Option String`
  (`none` = SQL NULL, dropped by UNPIVOT).
* Python regular expressions used by the validator are translated into
  executable character-list matchers; `re.match` is anchored at the start,
  `.search` scans all positions.
* Human-readable `message` / `detail` / `fix` strings are reproduced up to
  number formatting (thousands separators, float percentages) and quoting,
  which the claims never depend on; severities, phases and machine-readable
  `code` values are reproduced exactly.
* Machine integers are `Int` / `Nat`; Python `round` (half to even) is
  `pyRound`.
-/

set_option autoImplicit false

/-! ## Character and string helpers -/

/-- ASCII digit test (Python `\d` on the inputs considered here). -/
def isDig (c : Char) : Bool := c.isDigit

/-- ASCII uppercase letter. -/
def isUp (c : Char) : Bool := 65 ≤ c.toNat && c.toNat ≤ 90

/-- ASCII lowercase letter. -/
def isLow (c : Char) : Bool := 97 ≤ c.toNat && c.toNat ≤ 122

/-- Python whitespace set used by `str.strip` and regex `\s`. -/
def isPySpace (c : Char) : Bool :=
  c = ' ' || c = '\t' || c = '\n' || c = '\x0d' || c = '\x0b' || c = '\x0c'

/-- Word character for the `\b` boundary: ASCII alphanumerics, underscore and
the Latin-1 letters (the multilingual keywords only use these). -/
def isWordChar (c : Char) : Bool :=
  c.isAlphanum || c = '_' ||
    (0xC0 ≤ c.toNat && c.toNat ≤ 0xFF && c.toNat ≠ 0xD7 && c.toNat ≠ 0xF7)

/-- Lowercasing as performed by Python `str.lower` / SQL `lower` on the
ASCII and Latin-1 letters that appear in the validator vocabularies. -/
def lowChar (c : Char) : Char :=
  if isUp c then Char.ofNat (c.toNat + 32)
  else if 0xC0 ≤ c.toNat && c.toNat ≤ 0xDE && c.toNat ≠ 0xD7 then
    Char.ofNat (c.toNat + 32)
  else c

def lowStr (s : String) : String := String.mk (s.data.map lowChar)

/-- SQL `trim`: strips space characters only (DuckDB default). -/
def sqlTrim (s : String) : String :=
  String.mk (((s.data.dropWhile (· = ' ')).reverse.dropWhile (· = ' ')).reverse)

/-- Python `str.strip` (no argument): strips whitespace at both ends. -/
def pyStrip (s : String) : String :=
  String.mk (((s.data.dropWhile isPySpace).reverse.dropWhile isPySpace).reverse)

/-- Python `str.replace` for a single-character pattern (the only use in
the source is `enc.replace("_", "-")`). -/
def replaceChar (s : String) (a b : Char) : String :=
  String.mk (s.data.map (fun c => if c = a then b else c))

/-- Lexicographic (binary-collation) string comparison, on the character
list so that it evaluates inside the kernel. -/
def strLtB (a b : String) : Bool := a.data < b.data

def strLeB (a b : String) : Bool := a.data < b.data || a == b

/-- Prefix test on character lists. -/
def listIsPrefix : List Char → List Char → Bool
  | [], _ => true
  | _ :: _, [] => false
  | a :: as, b :: bs => a = b && listIsPrefix as bs

/-- Infix (contiguous substring) test on character lists. -/
def listIsInfix (needle : List Char) : List Char → Bool
  | [] => listIsPrefix needle []
  | c :: rest => listIsPrefix needle (c :: rest) || listIsInfix needle rest

/-- Case-insensitive substring test (`re.search` of a literal alternation). -/
def containsCI (hay needle : String) : Bool :=
  listIsInfix (lowStr needle).data (lowStr hay).data

/-- `s.startswith` on character lists, case-insensitively. -/
def startsCI (s pre : String) : Bool :=
  listIsPrefix (lowStr pre).data (lowStr s).data

/-- Render a list of strings roughly as Python renders a list (used only
inside human-readable messages). -/
def renderList (l : List String) : String := String.intercalate ", " l

/-! ## Regular-expression translations (csv_validator.py constants) -/

/-- `YEAR_COLUMN = ^(19|20)\d{2}$` -/
def isYearHeader (s : String) : Bool :=
  match s.data with
  | [a, b, c, d] => ((a = '1' && b = '9') || (a = '2' && b = '0')) && isDig c && isDig d
  | _ => false

/-- Month-name prefixes expanded from `MONTH_NAMES`
(`^(jan|feb|m[aä]r|apr|ma[yi]|jun|jul|aug|sep|o[ck]t|nov|de[cz]|gen|fev|avr|mai|jui|aou|ago|set|ott|ene|abr|dic)`, ignorecase). -/
def monthPrefixes : List String :=
  ["jan", "feb", "mar", "mär", "apr", "may", "mai", "jun", "jul", "aug",
   "sep", "oct", "okt", "nov", "dec", "dez", "gen", "fev", "avr", "jui",
   "aou", "ago", "set", "ott", "ene", "abr", "dic"]

/-- `MONTH_NAMES.match` (anchored prefix match, case-insensitive). -/
def isMonthHeader (s : String) : Bool :=
  monthPrefixes.any (fun p => startsCI s p)

/-- `regexp_matches(val, '^\d+,\d+$')` — the comma-decimal rule. -/
def isCommaDecimal (s : String) : Bool :=
  match s.data.span isDig with
  | (ds, rest) =>
    !ds.isEmpty &&
      (match rest with
       | c :: tail => c = ',' && !tail.isEmpty && tail.all isDig
       | [] => false)

/-- `regexp_matches(val, '^\d{1,2}[/.]\d{1,2}[/.]\d{4}$')` — non-ISO date. -/
def isNonIsoDate (s : String) : Bool :=
  match s.data.span isDig with
  | (d1, r1) =>
    (d1.length = 1 || d1.length = 2) &&
      (match r1 with
       | s1 :: r2 =>
         (s1 = '/' || s1 = '.') &&
           (match r2.span isDig with
            | (d2, r3) =>
              (d2.length = 1 || d2.length = 2) &&
                (match r3 with
                 | s2 :: r4 =>
                   (s2 = '/' || s2 = '.') &&
                     (match r4.span isDig with
                      | (d3, r5) => d3.length = 4 && r5.isEmpty)
                 | [] => false))
       | [] => false)

/-- Unit vocabulary of the units-in-cells rule. -/
def unitWords : List String := ["kg", "km", "eur", "%", "ha", "mw", "gwh", "tco2", "tn"]

/-- `regexp_matches(val, '^\d+[.,]?\d*\s*(kg|km|EUR|%|ha|MW|GWh|tCO2|tn)\s*$', 'i')`. -/
def isUnitValue (s : String) : Bool :=
  match s.data.span isDig with
  | (d1, r1) =>
    !d1.isEmpty &&
      (let r2 := match r1 with
        | c :: tail => if c = '.' || c = ',' then tail else r1
        | [] => r1
       let r3 := (r2.dropWhile isDig).dropWhile isPySpace
       unitWords.any (fun u =>
         listIsPrefix (lowStr u).data (r3.map lowChar) &&
           (r3.drop u.length).all isPySpace))

/-- `PLACEHOLDER_VALUES` from csv_validator.py. -/
def placeholderValues : List String :=
  ["n/a", "na", "null", "none", "-", "--", "/", "?", "",
   "not available", "not applicable", "unknown", "missing",
   "n.d.", "nd", "assente", "non disponibile",
   "n.r.", "nr", "inconnu", "non disponible",
   "k.a.", "ka", "unbekannt", "nicht verfügbar",
   "n.a.", "desconocido", "no disponible", "não disponível", "indisponível",
   "onbekend", "niet beschikbaar"]

/-- `lower(trim(val)) IN (PLACEHOLDER_VALUES)`. -/
def isPlaceholder (s : String) : Bool :=
  placeholderValues.any (fun v => lowStr (sqlTrim s) = v)

mutual
/-- Repeated `([.,]\d{3})` groups of the thousands-separator rule. -/
def thouGroups : List Char → Bool
  | [] => true
  | c :: rest => (c = '.' || c = ',') && thouThree rest

def thouThree : List Char → Bool
  | a :: b :: c :: r => isDig a && isDig b && isDig c && thouGroups r
  | _ => false
end

/-- `regexp_matches(val, '^\d{1,3}([.,]\d{3})+$')` — numeric-as-varchar rule. -/
def isThousandsGrouped (s : String) : Bool :=
  match s.data.span isDig with
  | (d1, rest) =>
    decide (1 ≤ d1.length) && decide (d1.length ≤ 3) && !rest.isEmpty && thouGroups rest

/-- Alternatives of `AGGREGATE_KEYWORDS` with the optional letters expanded
(all lowercase; matching is case-insensitive). -/
def aggregateAlternatives : List String :=
  ["total", "totale", "subtotal", "subtotale", "grand total", "total général",
   "gesamt", "insgesamt", "suma tota", "suma total", "somma", "average",
   "media", "mittelwert", "gemiddelde"]

/-- Match one alternative at the current position with `\b` on both sides. -/
def aggAt (leftOk : Bool) (l : List Char) : Bool :=
  leftOk && aggregateAlternatives.any (fun kw =>
    listIsPrefix kw.data l &&
      (match l.drop kw.data.length with
       | [] => true
       | c :: _ => !isWordChar c))

/-- Scan for `AGGREGATE_KEYWORDS.search` over the lowercased line. -/
def aggScan : Bool → List Char → Bool
  | _, [] => false
  | leftOk, c :: rest => aggAt leftOk (c :: rest) || aggScan (!isWordChar c) rest

/-- `AGGREGATE_KEYWORDS.search(line)`. -/
def aggregateSearch (line : String) : Bool := aggScan true (lowStr line).data

/-- Match one `FOOTNOTE_PAT` alternative at the current position:
`\(\d+\)`, `\(\*\)` or `\d+\s*\*`. -/
def fnAt (l : List Char) : Bool :=
  (match l with
   | '(' :: rest =>
     (match rest.span isDig with
      | (ds, r) => (!ds.isEmpty && (match r with | ')' :: _ => true | _ => false)) ||
          (match rest with | '*' :: ')' :: _ => true | _ => false))
   | _ => false) ||
  (match l.span isDig with
   | (ds, r) =>
     !ds.isEmpty && (match r.dropWhile isPySpace with | '*' :: _ => true | _ => false))

def fnScan : List Char → Bool
  | [] => false
  | c :: rest => fnAt (c :: rest) || fnScan rest

/-- `FOOTNOTE_PAT.search(line)`. -/
def footnoteSearch (line : String) : Bool := fnScan line.data

/-- Substrings of `CODE_COL_PAT` (case-insensitive `re.search`). -/
def codeColWords : List String :=
  ["code", "cod_", "_code", "_cod", "nuts", "lau", "iso_", "zip", "postal",
   "istat", "ags", "insee", "gemeente", "municipality", "commune", "gemeinde",
   "municipio"]

def codeColSearch (name : String) : Bool := codeColWords.any (containsCI name)

/-- `^[A-Z]{2}[0-9A-Z]{1,3}$` — NUTS code shape. -/
def isNutsCode (s : String) : Bool :=
  match s.data with
  | a :: b :: rest =>
    isUp a && isUp b && decide (1 ≤ rest.length) && decide (rest.length ≤ 3) &&
      rest.all (fun c => isDig c || isUp c)
  | _ => false

/-- `^\d{1,5}$` — short (leading-zero-stripped) ISTAT code. -/
def isShortIstat (s : String) : Bool :=
  decide (1 ≤ s.data.length) && decide (s.data.length ≤ 5) && s.data.all isDig

/-- `^\d{6}$` — six-digit ISTAT municipality code. -/
def isIstat6 (s : String) : Bool := s.data.length = 6 && s.data.all isDig

/-- `^[A-Z]{2}$` — ISO 3166-1 alpha-2 country code. -/
def isCountry2 (s : String) : Bool :=
  match s.data with
  | [a, b] => isUp a && isUp b
  | _ => false

/-- Problematic column-name classification of phase 2: a space, then the
special-character class `[^a-zA-Z0-9_À-ÿ\-]`, then a leading digit. -/
def isAllowedNameChar (c : Char) : Bool :=
  c.isAlphanum || c = '_' || c = '-' || (0xC0 ≤ c.toNat && c.toNat ≤ 0xFF)

def badNameLabel (name : String) : Option String :=
  if name.data.any (· = ' ') then some (name ++ " (space)")
  else if name.data.any (fun c => !isAllowedNameChar c) then some (name ++ " (special chars)")
  else if (match name.data with | c :: _ => isDig c | [] => false) then
    some (name ++ " (starts with digit)")
  else none

/-! ## Data model (models.py) -/

inductive Severity where
  | blocker
  | major
  | minor
  | ok
deriving DecidableEq, Repr

structure Finding where
  severity : Severity
  phase : String
  code : String
  message : String
  detail : String := ""
  fix : String := ""
deriving DecidableEq, Repr

structure ScoreDimension where
  name : String
  max_score : Int
  score : Int
  notes : List String := []
deriving DecidableEq, Repr

def ScoreDimension.deduction (d : ScoreDimension) : Int := d.max_score - d.score

structure QualityReport where
  source : String
  profile : String := "unknown"
  mode : String := "standard"
  findings : List Finding := []
  dimensions : List ScoreDimension := []
deriving DecidableEq, Repr

def QualityReport.blockers (r : QualityReport) : List Finding :=
  r.findings.filter (fun f => f.severity = Severity.blocker)

def QualityReport.majors (r : QualityReport) : List Finding :=
  r.findings.filter (fun f => f.severity = Severity.major)

def QualityReport.minors (r : QualityReport) : List Finding :=
  r.findings.filter (fun f => f.severity = Severity.minor)

def QualityReport.total_score (r : QualityReport) : Int :=
  (r.dimensions.map ScoreDimension.score).sum

def QualityReport.max_score (r : QualityReport) : Int :=
  (r.dimensions.map ScoreDimension.max_score).sum

/-- Python `round` on an exact ratio `num/den` (`den > 0`): half to even. -/
def pyRound (num den : Int) : Int :=
  let q := num / den
  let r := num % den
  if 2 * r < den then q
  else if den < 2 * r then q + 1
  else if q % 2 = 0 then q else q + 1

def QualityReport.score_pct (r : QualityReport) : Int :=
  if r.max_score = 0 then 0 else pyRound (r.total_score * 100) r.max_score

def QualityReport.has_blockers (r : QualityReport) : Bool :=
  0 < r.blockers.length

/-- `QualityReport.suppress`: remove all findings with the given code. -/
def QualityReport.suppress (r : QualityReport) (code : String) : QualityReport :=
  { r with findings := r.findings.filter (fun f => f.code ≠ code) }

/-- The findings array of `to_dict` (ok findings are excluded from export). -/
def QualityReport.exportFindings (r : QualityReport) : List Finding :=
  r.findings.filter (fun f => f.severity ≠ Severity.ok)

/-! Finding constructors mirroring the `QualityReport.ok/blocker/major/minor`
helpers. -/

def okF (phase code message : String) : Finding :=
  { severity := Severity.ok, phase := phase, code := code, message := message }

def blockerF (phase code message : String) (detail : String := "") (fix : String := "") : Finding :=
  { severity := Severity.blocker, phase := phase, code := code, message := message,
    detail := detail, fix := fix }

def majorF (phase code message : String) (detail : String := "") (fix : String := "") : Finding :=
  { severity := Severity.major, phase := phase, code := code, message := message,
    detail := detail, fix := fix }

def minorF (phase code message : String) (detail : String := "") (fix : String := "") : Finding :=
  { severity := Severity.minor, phase := phase, code := code, message := message,
    detail := detail, fix := fix }

@[simp] theorem okF_code (p c m : String) : (okF p c m).code = c := rfl
@[simp] theorem okF_severity (p c m : String) : (okF p c m).severity = Severity.ok := rfl
@[simp] theorem blockerF_code (p c m d x : String) : (blockerF p c m d x).code = c := rfl
@[simp] theorem blockerF_severity (p c m d x : String) :
    (blockerF p c m d x).severity = Severity.blocker := rfl
@[simp] theorem majorF_code (p c m d x : String) : (majorF p c m d x).code = c := rfl
@[simp] theorem majorF_severity (p c m d x : String) :
    (majorF p c m d x).severity = Severity.major := rfl
@[simp] theorem minorF_code (p c m d x : String) : (minorF p c m d x).code = c := rfl
@[simp] theorem minorF_severity (p c m d x : String) :
    (minorF p c m d x).severity = Severity.minor := rfl

/-! ## CLI verdict (cli_csv.py `main`, exit-code block) -/

/-- Exit code of `odq-csv`: 2 on blockers, 1 on majors, 0 otherwise. -/
def exitCode (r : QualityReport) : Nat :=
  if r.has_blockers then 2 else if r.majors ≠ [] then 1 else 0

/-- Recomputation of the verdict from an exported findings array, following
the spec sentence on reproducibility (severities alone decide it). -/
def recomputeVerdict (fs : List Finding) : Nat :=
  if fs.any (fun f => f.severity = Severity.blocker) then 2
  else if fs.any (fun f => f.severity = Severity.major) then 1
  else 0

/-! ## CSV validator environment

Each field records the outcome of one I/O action or DuckDB query of
`csv_validator.py` for the run being modelled (`none` models a raised
exception where the code catches one). -/

structure DuckParse where
  rows : Nat
  cols : Nat
deriving DecidableEq, Repr

structure SniffInfo where
  delimiter : String
  hasHeader : Bool
deriving DecidableEq, Repr

structure Env where
  /-- `str(csv_path)` given to the constructor. -/
  csvPath : String
  /-- `tempfile.mktemp(suffix=".csv")` — the temp copy path of retry 2. -/
  tmpPath : String
  /-- constructor argument `sample_rows` (default 50000). -/
  sampleRowsCap : Nat
  /-- `self.path.exists()` -/
  pathExists : Bool
  /-- `self.path.stat().st_size` -/
  fileSize : Nat
  /-- a null byte occurs in the first 8192 bytes. -/
  chunkHasNull : Bool
  /-- phase-0 strict `read_csv_auto` COUNT/DESCRIBE; `none` = exception. -/
  strictParse : Option DuckParse
  /-- retry 1, `strict_mode=false`. -/
  lenientParse : Option DuckParse
  /-- `_detect_encoding(self.path).0` (already lowercased by the helper). -/
  detectedEnc : String
  /-- abstraction of the reported detection confidence, as a percentage. -/
  encConfPct : Nat
  /-- retry 2: parse of the re-encoded UTF-8 temp copy. -/
  reencParse : Option DuckParse
  /-- `_has_bom(self.path)` -/
  hasBom : Bool
  /-- `_has_crlf(self.path)` -/
  hasCrlf : Bool
  /-- `sniff_csv` row; `none` = exception or empty result. -/
  sniff : Option SniffInfo
  /-- phase-1 unguarded `DESCRIBE` (name, type); `none` = exception,
  which propagates out of `run`. -/
  describeMain : Option (List (String × String))
  /-- `_read_raw_headers(self.path, separator)` -/
  rawHeaders : List String
  /-- `_tail_lines(self.path)` (last 10 lines). -/
  tailLines : List String
  /-- `_head_lines(self.path)` (first 200 lines). -/
  headLines : List String
  /-- SUMMARIZE result: (column_name, null_percentage); `none` = exception. -/
  summarize : Option (List (String × Option ℚ))
  /-- the all-varchar COUNT(*) probe succeeded. -/
  varcharLoadOk : Bool
  /-- the per-detector UNPIVOT queries raised (each is caught separately). -/
  commaFails : Bool
  dateFails : Bool
  unitsFails : Bool
  phFails : Bool
  numvarFails : Bool
  /-- the all-varchar sampled table, row-major; `none` cells are SQL NULL
  (dropped by UNPIVOT). Rows appear in file order. -/
  sampleGrid : List (List (Option String))
  /-- the typed table used by the whitespace and fuzzy queries
  (string view of the VARCHAR columns; other cells unused). -/
  typedGrid : List (List (Option String))
  /-- DuckDB `jaro_winkler_similarity` (an engine-provided function). -/
  jaroSim : String → String → ℚ
  /-- phase-4 per-column value query (up to 5000 non-null values),
  keyed by DuckDB column name. -/
  codeVals : String → List String
  /-- the phase-4 per-column query raised (caught by `continue`). -/
  codeQueryFails : String → Bool

/-! Phase identifiers (`CsvValidator.P0 .. P4`). -/

def P0 : String := "phase0_blockers"
def P1 : String := "phase1_structure"
def P2 : String := "phase2_columns"
def P3 : String := "phase3_content"
def P4 : String := "phase4_codes"

/-- Keep the first occurrence of each element (Python dict/set insertion
order, used to model `GROUP BY` outputs). -/
def firstDedupAux {α : Type} [DecidableEq α] (seen : List α) : List α → List α
  | [] => []
  | a :: as => if a ∈ seen then firstDedupAux seen as else a :: firstDedupAux (a :: seen) as

def firstDedup {α : Type} [DecidableEq α] (l : List α) : List α := firstDedupAux [] l

/-- Insertion sort (deterministic stand-in for SQL `ORDER BY`). -/
def insertBy {α : Type} (le : α → α → Bool) (a : α) : List α → List α
  | [] => [a]
  | b :: bs => if le a b then a :: b :: bs else b :: insertBy le a bs

def sortByLe {α : Type} (le : α → α → Bool) : List α → List α
  | [] => []
  | a :: as => insertBy le a (sortByLe le as)

/-! ## Phase 0 (`CsvValidator._phase0_blockers`) -/

structure P0Result where
  findings : List Finding
  lenient : Bool := false
  /-- `self._orig_path` was set (a UTF-8 temp copy replaced `self.path`). -/
  reencoded : Bool := false
  rowCount : Nat := 0
deriving DecidableEq, Repr

/-- The `rows == 0` / `cols <= 1` / success tail of phase 0. -/
def p0Finish (pre : List Finding) (lenient reencoded : Bool) (d : DuckParse) : P0Result :=
  if d.rows = 0 then
    { findings := pre ++ [blockerF P0 "no_data_rows" "No data rows (header only or empty)"],
      lenient := lenient, reencoded := reencoded }
  else if d.cols ≤ 1 then
    { findings := pre ++ [blockerF P0 "trivial_structure"
        ("Only " ++ toString d.cols ++ " column(s) — check separator")
        "" "Verify that the correct separator is used"],
      lenient := lenient, reencoded := reencoded }
  else
    { findings := pre ++ [okF P0 "parseable"
        ("Parsed OK: " ++ toString d.rows ++ " rows x " ++ toString d.cols ++ " columns")],
      lenient := lenient, reencoded := reencoded, rowCount := d.rows }

def phase0 (env : Env) : P0Result :=
  if !env.pathExists then
    { findings := [blockerF P0 "file_not_found" ("File not found: " ++ env.csvPath)] }
  else if env.fileSize = 0 then
    { findings := [blockerF P0 "file_empty" "File is empty (0 bytes)"] }
  else if env.chunkHasNull then
    { findings := [blockerF P0 "file_binary" "File appears binary (null bytes) — not a CSV"] }
  else
    match env.strictParse with
    | some d => p0Finish [] false false d
    | none =>
      match env.lenientParse with
      | some d =>
        p0Finish [minorF P0 "csv_needs_lenient_parsing"
          "File required lenient parsing (quoted newlines or minor formatting issues)"
          "" "Review header quoting — a field name contains a newline inside quotes"] true false d
      | none =>
        if env.detectedEnc = "utf-8" || env.detectedEnc = "utf8" ||
            env.detectedEnc = "ascii" || env.detectedEnc = "unknown" then
          { findings := [blockerF P0 "csv_unparseable"
              "DuckDB cannot parse file: could not parse despite UTF-8/unknown encoding"
              "" "Check separator, quoting, and encoding"] }
        else
          match env.reencParse with
          | some d =>
            p0Finish [majorF P0 "encoding_not_utf8"
              ("File is " ++ env.detectedEnc ++ " encoded — converted to UTF-8 for analysis")
              "" ("iconv -f " ++ env.detectedEnc ++ " -t utf-8 input.csv > output.csv")] false true d
          | none =>
            { findings := [blockerF P0 "csv_unparseable"
                "DuckDB cannot parse file: re-encoded retry failed"
                "" "Check separator, quoting, and encoding"] }

/-! ## Phase 1 (`CsvValidator._phase1_structure`) -/

structure Ctx where
  separator : String
  duckCols : List (String × String)
  rawHeaders : List String
  rowCount : Nat
deriving DecidableEq, Repr

def phase1F (env : Env) (p0 : P0Result) (schema : List (String × String)) :
    List Finding × Ctx :=
  let encFs :=
    if p0.reencoded then []
    else
      let encNorm := lowStr (replaceChar env.detectedEnc '_' '-')
      if encNorm = "utf-8" || encNorm = "utf-8-sig" || encNorm = "ascii" ||
          encNorm = "us-ascii" then
        [okF P1 "encoding_utf8"
          ("Encoding: UTF-8 (" ++ toString env.encConfPct ++ "% confidence)")]
      else
        [majorF P1 "encoding_not_utf8"
          ("Encoding detected as " ++ encNorm ++ " (" ++ toString env.encConfPct ++
            "% confidence) — expected UTF-8")
          "" ("iconv -f " ++ encNorm ++ " -t UTF-8 input.csv > output.csv")]
  let bomFs :=
    if env.hasBom then
      [majorF P1 "bom_present" "UTF-8 BOM present — causes parse errors in many tools"
        "" "strip the three BOM bytes from the start of the file"]
    else [okF P1 "no_bom" "No BOM"]
  let eolFs :=
    if env.hasCrlf then [okF P1 "crlf_endings" "CRLF line endings (RFC 4180 standard)"]
    else [okF P1 "lf_endings" "LF line endings (Unix-style)"]
  let sep :=
    match env.sniff with
    | some s => if s.delimiter = "" then "," else s.delimiter
    | none => ","
  let hdrFs :=
    match env.sniff with
    | some s =>
      if !s.hasHeader then
        [majorF P1 "no_header" "No header row detected"
          "" "Add a descriptive header row as the first line"]
      else []
    | none => []
  let ncols := if env.rawHeaders.length = 0 then schema.length else env.rawHeaders.length
  (encFs ++ bomFs ++ eolFs ++ hdrFs ++
     [okF P1 "separator" ("Separator: " ++ sep),
      okF P1 "dimensions" (toString p0.rowCount ++ " rows x " ++ toString ncols ++ " columns")],
   { separator := sep, duckCols := schema, rawHeaders := env.rawHeaders,
     rowCount := p0.rowCount })

/-! ## Phase 2 (`CsvValidator._phase2_columns`) -/

/-- `names = self._raw_headers or [c.name for c in self._duckdb_columns]`. -/
def effNames (ctx : Ctx) : List String :=
  if ctx.rawHeaders = [] then ctx.duckCols.map Prod.fst else ctx.rawHeaders

def dupPart (names : List String) : List Finding :=
  let dupes := (firstDedup names).filter (fun n => 1 < names.count n)
  if dupes ≠ [] then
    [majorF P2 "duplicate_columns" ("Duplicate column names: " ++ renderList dupes)
      "" "Rename duplicates before publishing"]
  else [okF P2 "no_duplicate_columns" "No duplicate column names"]

def badNamesPart (names : List String) : List Finding :=
  let bad := names.filterMap badNameLabel
  if bad ≠ [] then
    [minorF P2 "bad_column_names"
      (toString bad.length ++ " column(s) with non-SQL-friendly names")
      (renderList (bad.take 5) ++ (if 5 < bad.length then "…" else ""))
      "Rename to snake_case: lowercase, no spaces, no special chars"]
  else [okF P2 "column_names_ok" "All column names are SQL-friendly"]

/-- Wide-format branch: appends the wide finding and then suppresses every
`no_header` finding in the whole report (`r.suppress("no_header")`). -/
def wideApply (names : List String) (fs : List Finding) : List Finding :=
  let yearCols := names.filter isYearHeader
  let monthCols := names.filter isMonthHeader
  if 3 ≤ yearCols.length then
    (fs ++ [majorF P2 "wide_format_years"
        ("Wide format: " ++ toString yearCols.length ++ " year columns (" ++
          renderList (yearCols.take 4) ++ "...)")
        "" "UNPIVOT into (entity, year, value): DuckDB UNPIVOT or mlr reshape"]).filter
      (fun f => f.code ≠ "no_header")
  else if 3 ≤ monthCols.length then
    (fs ++ [majorF P2 "wide_format_months"
        ("Wide format: " ++ toString monthCols.length ++ " month columns (" ++
          renderList (monthCols.take 4) ++ "...)")
        "" "UNPIVOT into (entity, month, value): DuckDB UNPIVOT or mlr reshape"]).filter
      (fun f => f.code ≠ "no_header")
  else fs ++ [okF P2 "no_wide_format" "No wide-format time-period columns"]

def aggPart (env : Env) : List Finding :=
  let agg := env.tailLines.filter aggregateSearch
  if agg ≠ [] then
    [majorF P2 "aggregate_rows"
      (toString agg.length ++ " aggregate/total row(s) at end of file")
      (String.mk ((agg.headD "").data.take 100))
      "Remove total rows; publish separate summary if needed"]
  else [okF P2 "no_aggregate_rows" "No aggregate rows at end of file"]

def fnPart (env : Env) : List Finding :=
  let fn := env.headLines.filter footnoteSearch
  if fn ≠ [] then
    [minorF P2 "footnote_markers"
      ("Footnote markers (*), (1) in " ++ toString fn.length ++ " sampled line(s)")
      (String.mk ((fn.headD "").data.take 80))
      "Remove markers; document notes in description or a separate column"]
  else []

def phase2F (env : Env) (ctx : Ctx) (prior : List Finding) : List Finding :=
  let names := effNames ctx
  wideApply names (prior ++ dupPart names ++ badNamesPart names) ++ aggPart env ++ fnPart env

/-! ## Phase 3 (`CsvValidator._phase3_content`) -/

/-- `UNPIVOT (... LIMIT n) ON COLUMNS(*) INTO NAME col VALUE val`:
(column, value) pairs in row-major order, SQL NULLs dropped. -/
def unpivot (names : List String) (grid : List (List (Option String))) :
    List (String × String) :=
  (grid.map (fun row =>
    (names.zip row).filterMap (fun nv => nv.2.map (fun v => (nv.1, v))))).flatten

/-- Matches of a value rule inside one column of the unpivoted sample. -/
def colMatchCount (pairs : List (String × String)) (p : String → Bool) (c : String) : Nat :=
  (pairs.filter (fun pr => pr.1 = c && p pr.2)).length

/-- `GROUP BY col HAVING COUNT(*) >= thr` over the rule matches. -/
def hitCols (names : List String) (pairs : List (String × String))
    (p : String → Bool) (thr : Nat) : List String :=
  (firstDedup names).filter (fun c => thr ≤ colMatchCount pairs p c)

/-- `MIN(val) AS example` over the matches of one column. -/
def minMatchVal (pairs : List (String × String)) (p : String → Bool) (c : String) : String :=
  match (pairs.filter (fun pr => pr.1 = c && p pr.2)).map Prod.snd with
  | [] => ""
  | v :: vs => vs.foldl (fun a b => if strLtB b a then b else a) v

def exampleDetail (pairs : List (String × String)) (p : String → Bool)
    (cols : List String) : String :=
  String.intercalate "; " ((cols.take 3).map (fun c => c ++ ": e.g. " ++ minMatchVal pairs p c))

def nullRatePart (tbl : List (String × Option ℚ)) : List Finding :=
  let high := tbl.filter (fun e => 5 < e.2.getD 0)
  if high ≠ [] then
    [majorF P3 "high_null_rate"
      (toString high.length ++ " column(s) with >5% null values")
      (renderList (high.map Prod.fst))
      "Document missing-data policy; consider imputation or flagging"]
  else []

def commaPart (env : Env) (names : List String) (pairs : List (String × String)) :
    List Finding :=
  let cols := if env.commaFails then [] else hitCols names pairs isCommaDecimal 3
  if cols ≠ [] then
    [majorF P3 "comma_decimal"
      ("Comma decimal separator in " ++ toString cols.length ++ " column(s): " ++
        renderList cols)
      (exampleDetail pairs isCommaDecimal cols)
      "replace the decimal comma by a dot in numeric fields before publishing"]
  else [okF P3 "no_comma_decimal" "No comma decimal separator detected"]

def datePart (env : Env) (names : List String) (pairs : List (String × String)) :
    List Finding :=
  let cols := if env.dateFails then [] else hitCols names pairs isNonIsoDate 2
  if cols ≠ [] then
    [majorF P3 "non_iso_date"
      ("Non-ISO date format in " ++ toString cols.length ++ " column(s): " ++
        renderList cols)
      (exampleDetail pairs isNonIsoDate cols)
      "duckdb: strptime to DATE"]
  else [okF P3 "iso_dates" "No non-ISO date formats detected"]

def unitsPart (env : Env) (names : List String) (pairs : List (String × String)) :
    List Finding :=
  let cols := if env.unitsFails then [] else hitCols names pairs isUnitValue 2
  if cols ≠ [] then
    [majorF P3 "units_in_cells"
      ("Units embedded in values in " ++ toString cols.length ++ " column(s)")
      (exampleDetail pairs isUnitValue cols)
      "Split into numeric value column + separate unit column"]
  else [okF P3 "no_units_in_cells" "No units embedded in cell values"]

/-- Distinct normalized placeholder values found in one column
(`list_distinct(list(lower(trim(val))))`). -/
def phFoundVals (pairs : List (String × String)) (c : String) : List String :=
  firstDedup (((pairs.filter (fun pr => pr.1 = c && isPlaceholder pr.2)).map
    (fun pr => lowStr (sqlTrim pr.2))))

def phPart (env : Env) (names : List String) (pairs : List (String × String)) :
    List Finding :=
  let cand := if env.phFails then [] else hitCols names pairs isPlaceholder 1
  let flagged := (sortByLe (fun a b =>
    colMatchCount pairs isPlaceholder b ≤ colMatchCount pairs isPlaceholder a) cand).take 10
  if flagged ≠ [] then
    let allFound := sortByLe strLeB
      (firstDedup ((flagged.map (phFoundVals pairs)).flatten))
    [majorF P3 "placeholder_values"
      ("Placeholder values (" ++ renderList allFound ++ ") in " ++
        toString flagged.length ++ " column(s)")
      (renderList ((flagged.take 5).map (fun c =>
        c ++ "(" ++ toString (colMatchCount pairs isPlaceholder c) ++ ")")))
      "Replace with proper NULL/empty; document missing-data policy"]
  else [okF P3 "no_placeholder_values" "No placeholder values detected"]

def numvarPart (env : Env) (ctx : Ctx) (pairs200 : List (String × String)) :
    List Finding :=
  let varcharTyped :=
    (ctx.duckCols.filter (fun c => c.2 = "VARCHAR" || c.2 = "TEXT")).map Prod.fst
  if varcharTyped ≠ [] then
    let cols := if env.numvarFails then []
      else hitCols varcharTyped pairs200 isThousandsGrouped 5
    if cols ≠ [] then
      [majorF P3 "numeric_as_varchar"
        (toString cols.length ++
          " column(s) are VARCHAR but contain numbers with thousands separator")
        (renderList (cols.take 5))
        "Remove thousands separator then cast to DOUBLE/BIGINT"]
    else []
  else []

/-- Values of one column of a row-major grid, SQL NULLs dropped. -/
def colValuesIdx (names : List String) (grid : List (List (Option String)))
    (c : String) : List String :=
  match names.findIdx? (fun n => n = c) with
  | some i => grid.filterMap (fun row => (row.get? i).bind id)
  | none => []

def wsPart (env : Env) (ctx : Ctx) : List Finding :=
  let names := ctx.duckCols.map Prod.fst
  let varcharCats :=
    (ctx.duckCols.filter (fun c => c.2 = "VARCHAR" || c.2 = "TEXT")).map Prod.fst
  let wsCols := (varcharCats.take 20).filter (fun c =>
    0 < ((colValuesIdx names env.typedGrid c).filter (fun v => v ≠ sqlTrim v)).length)
  if wsCols ≠ [] then
    [minorF P3 "trailing_whitespace_values"
      (toString wsCols.length ++ " column(s) with leading/trailing whitespace in values")
      (renderList (wsCols.take 5))
      "trim all string columns before publishing"]
  else [okF P3 "no_trailing_whitespace" "No leading/trailing whitespace in category values"]

/-- Candidate distinct category values of one column for the fuzzy check
(`GROUP BY 1 HAVING COUNT(*) >= 2 ORDER BY COUNT(*) DESC LIMIT 80`). -/
def fuzzyValList (env : Env) (ctx : Ctx) (c : String) : List String :=
  let names := ctx.duckCols.map Prod.fst
  let trimmed := ((colValuesIdx names env.typedGrid c).map sqlTrim).filter
    (fun v => 3 < v.length)
  let grouped := (sortByLe (fun a b => trimmed.count b ≤ trimmed.count a)
    ((firstDedup trimmed).filter (fun v => 2 ≤ trimmed.count v))).take 80
  grouped.filter (fun v => v ≠ "")

/-- Similar pairs of one column (`a.v < b.v AND jaro_winkler_similarity > 0.92`,
top 5 by similarity). -/
def fuzzyColPairs (env : Env) (ctx : Ctx) (c : String) : List (String × String) :=
  let valList := fuzzyValList env ctx c
  if valList.length < 2 || 80 < valList.length then []
  else if max ctx.rowCount 1 < 2 * valList.length then []
  else
    let cand := ((valList.map (fun a => valList.map (fun b => (a, b)))).flatten).filter
      (fun ab => strLtB ab.1 ab.2 && (92 : ℚ) / 100 < env.jaroSim ab.1 ab.2)
    (sortByLe (fun x y => env.jaroSim y.1 y.2 ≤ env.jaroSim x.1 x.2) cand).take 5

def fuzzyPart (env : Env) (ctx : Ctx) : List Finding :=
  let varcharCats :=
    (ctx.duckCols.filter (fun c => c.2 = "VARCHAR" || c.2 = "TEXT")).map Prod.fst
  let issues := (varcharCats.take 20).filterMap (fun c =>
    let ps := fuzzyColPairs env ctx c
    if ps ≠ [] then some (c, ps) else none)
  if issues ≠ [] then
    [minorF P3 "fuzzy_category_values"
      (toString issues.length ++
        " column(s) with near-duplicate category values (possible typos)")
      (String.intercalate "; " ((issues.take 3).map (fun cp =>
        cp.1 ++ ": " ++ String.intercalate "; " ((cp.2.take 2).map (fun ab =>
          ab.1 ++ "~" ++ ab.2)))))
      "Standardise values: unify spellings"]
  else [okF P3 "no_fuzzy_category_values" "No near-duplicate category values detected"]

/-- The SUMMARIZE block of phase 3 (ok + null-rate findings, or the
`summarize_failed` minor). -/
def sumPart (env : Env) : List Finding :=
  match env.summarize with
  | some tbl => [okF P3 "summarize_ok" "DuckDB SUMMARIZE completed"] ++ nullRatePart tbl
  | none => [minorF P3 "summarize_failed" "SUMMARIZE failed"]

def phase3F (env : Env) (ctx : Ctx) : List Finding :=
  let names := ctx.duckCols.map Prod.fst
  let pairsFull := unpivot names (env.sampleGrid.take env.sampleRowsCap)
  let pairs500 := unpivot names (env.sampleGrid.take (min env.sampleRowsCap 500))
  let pairs200 := unpivot names (env.sampleGrid.take 200)
  if !env.varcharLoadOk then
    sumPart env ++ [minorF P3 "varchar_load_failed" "Could not load data for content checks"]
  else
    sumPart env ++ commaPart env names pairsFull ++ datePart env names pairs500 ++
      unitsPart env names pairs500 ++ phPart env names pairsFull ++
      numvarPart env ctx pairs200 ++ wsPart env ctx ++ fuzzyPart env ctx

/-! ## Phase 4 (`CsvValidator._phase4_codes`) -/

/-- The raw-name → DuckDB-name map built by position (`dict` semantics:
a later duplicate raw name overwrites an earlier one). -/
def rawToDuck (raw duck : List String) (rn : String) : String :=
  let idxs := (List.range raw.length).filter
    (fun i => raw.get? i = some rn && i < duck.length)
  match idxs.getLast? with
  | some i => (duck.get? i).getD rn
  | none => rn

def colIssues (env : Env) (raw duck : List String) (rawCol : String) : List String :=
  let duckCol := rawToDuck raw duck rawCol
  if env.codeQueryFails duckCol then []
  else
    let values := env.codeVals duckCol
    let colLower := lowStr rawCol
    let nutsIss :=
      if listIsInfix "nuts".data colLower.data then
        let bad := values.filter (fun v => !isNutsCode v)
        if bad ≠ [] then
          [rawCol ++ ": " ++ toString bad.length ++ " values do not match NUTS (e.g. " ++
            bad.headD "" ++ ")"]
        else []
      else []
    let istatIss :=
      if listIsInfix "istat".data colLower.data || listIsInfix "comune".data colLower.data ||
          listIsInfix "municipal".data colLower.data then
        let short := values.filter isShortIstat
        let bad := values.filter (fun v => !isIstat6 v)
        if short ≠ [] then
          [rawCol ++ ": " ++ toString short.length ++
            " values look like ISTAT missing leading zeros (e.g. " ++ short.headD "" ++ ")"]
        else if bad ≠ [] then
          [rawCol ++ ": " ++ toString bad.length ++ " values not 6-digit ISTAT (e.g. " ++
            bad.headD "" ++ ")"]
        else []
      else []
    let ctryIss :=
      if listIsInfix "country_code".data colLower.data ||
          listIsInfix "iso_country".data colLower.data ||
          listIsInfix "nation".data colLower.data then
        let bad := values.filter (fun v => !isCountry2 v)
        if bad ≠ [] then
          [rawCol ++ ": " ++ toString bad.length ++
            " values not 2-letter ISO country code (e.g. " ++ bad.headD "" ++ ")"]
        else []
      else []
    nutsIss ++ istatIss ++ ctryIss

def phase4F (env : Env) (ctx : Ctx) : List Finding :=
  let allNames := effNames ctx
  let codeCols := allNames.filter codeColSearch
  if codeCols = [] then [okF P4 "no_code_columns" "No administrative code columns detected"]
  else
    let duckNames := ctx.duckCols.map Prod.fst
    let issues := ((codeCols.take 10).map (colIssues env ctx.rawHeaders duckNames)).flatten
    if issues ≠ [] then
      [majorF P4 "invalid_reference_codes"
        ("Potential issues in " ++ toString issues.length ++ " code column(s)")
        (String.intercalate "; " (issues.take 3))
        "Validate against reference tables; restore leading zeros"]
    else [okF P4 "reference_codes_ok"
      ("Reference code columns look well-formed: " ++ renderList (codeCols.take 5))]

/-! ## Scoring (`CsvValidator._compute_scores`) -/

def codesOf (fs : List Finding) : List String :=
  (fs.filter (fun f => f.severity ≠ Severity.ok)).map Finding.code

/-- One fixed deduction, applied when the code is present in the run. -/
def ded (codes : List String) (c : String) (k : Int) : Int :=
  if c ∈ codes then k else 0

def fmtScore (codes : List String) : Int :=
  max 0 (15 - ded codes "encoding_not_utf8" 10 - ded codes "bom_present" 5 -
    ded codes "no_header" 3)

def structScore (codes : List String) : Int :=
  max 0 (20 - ded codes "wide_format_years" 5 - ded codes "wide_format_months" 5 -
    ded codes "duplicate_columns" 5 - ded codes "aggregate_rows" 5 -
    ded codes "bad_column_names" 3 - ded codes "footnote_markers" 2)

def contentScore (codes : List String) : Int :=
  max 0 (25 - ded codes "comma_decimal" 5 - ded codes "non_iso_date" 5 -
    ded codes "high_null_rate" 5 - ded codes "units_in_cells" 3 -
    ded codes "placeholder_values" 3 - ded codes "invalid_reference_codes" 4 -
    ded codes "numeric_as_varchar" 2 - ded codes "fuzzy_category_values" 2)

def computeScores (fs : List Finding) : List ScoreDimension :=
  let codes := codesOf fs
  [⟨"File format compliance", 15, fmtScore codes, []⟩,
   ⟨"Data structure quality", 20, structScore codes, []⟩,
   ⟨"Data content quality", 25, contentScore codes, []⟩]

/-! ## `CsvValidator.run` -/

structure RunOut where
  /-- the returned report; `none` when an exception propagates out of `run`. -/
  result : Option QualityReport
  /-- `self.path` when `run` ends. -/
  finalPath : String
  /-- how many times the temp copy was unlinked before `run` ended. -/
  tempDeleted : Nat
deriving Repr

def runFindings (env : Env) (p0 : P0Result) (schema : List (String × String)) :
    List Finding :=
  let p1 := phase1F env p0 schema
  phase2F env p1.2 (p0.findings ++ p1.1) ++ phase3F env p1.2 ++ phase4F env p1.2

def CsvValidator.run (env : Env) : RunOut :=
  let p0 := phase0 env
  let curPath := if p0.reencoded then env.tmpPath else env.csvPath
  let rep0 : QualityReport := { source := env.csvPath, findings := p0.findings }
  if rep0.has_blockers then
    { result := some { rep0 with dimensions :=
        [⟨"File format compliance", 15, 0, []⟩,
         ⟨"Data structure quality", 20, 0, []⟩,
         ⟨"Data content quality", 25, 0, []⟩] },
      finalPath := curPath, tempDeleted := 0 }
  else
    match env.describeMain with
    | none => { result := none, finalPath := curPath, tempDeleted := 0 }
    | some schema =>
      let fs := runFindings env p0 schema
      { result := some { rep0 with findings := fs, dimensions := computeScores fs },
        finalPath := env.csvPath,
        tempDeleted := if p0.reencoded then 1 else 0 }

/-! ## Metadata model (metadata_validator.py) -/

def PHASE5 : String := "phase5_metadata"

/-- One CKAN resource/distribution record. `none` = key missing or JSON null.
`sizeInt` is the value of `int(size or 0)` with conversion failure mapped
to 0, as in the source. -/
structure CkanResource where
  id : Option String := none
  name : Option String := none
  format : Option String := none
  distributionFormat : Option String := none
  mimetype : Option String := none
  licenseId : Option String := none
  license : Option String := none
  sizeInt : Int := 0
  url : Option String := none
deriving DecidableEq, Repr

/-- The CKAN `package_show` fields read by the validator. -/
structure CkanMeta where
  title : Option String := none
  notes : Option String := none
  organizationTitle : Option String := none
  licenseId : Option String := none
  licenseTitle : Option String := none
  tags : List String := []
  issued : Option String := none
  modified : Option String := none
  extras : List (String × Option String) := []
  resources : List CkanResource := []
deriving DecidableEq, Repr

/-- `_extras_value`: first extras item with the key; `(value or "").strip()`. -/
def extrasValue (meta : CkanMeta) (key : String) : String :=
  match meta.extras.find? (fun kv => kv.1 = key) with
  | some kv => pyStrip (kv.2.getD "")
  | none => ""

/-- `ISO_DATE_RE = ^\d{4}-\d{2}-\d{2}$`. -/
def isIsoDate (s : String) : Bool :=
  match s.data with
  | [a, b, c, d, e, f, g, h, i, j] =>
    isDig a && isDig b && isDig c && isDig d && e = '-' && isDig f && isDig g &&
      h = '-' && isDig i && isDig j
  | _ => false

/-- `NON_ISO_DATE_RE`: one or two digits, a separator (dash, slash or dot),
one or two digits, a separator, four digits (anchored both ends). -/
def isNonIsoMetaDate (s : String) : Bool :=
  match s.data.span isDig with
  | (d1, r1) =>
    (d1.length = 1 || d1.length = 2) &&
      (match r1 with
       | s1 :: r2 =>
         (s1 = '-' || s1 = '/' || s1 = '.') &&
           (match r2.span isDig with
            | (d2, r3) =>
              (d2.length = 1 || d2.length = 2) &&
                (match r3 with
                 | s2 :: r4 =>
                   (s2 = '-' || s2 = '/' || s2 = '.') &&
                     (match r4.span isDig with
                      | (d3, r5) => d3.length = 4 && r5.isEmpty)
                 | [] => false))
       | [] => false)

/-- `UNSTABLE_URL_RE` literal alternatives (case-insensitive search). -/
def unstableWords : List String :=
  ["bit.ly", "tinyurl", "goo.gl", "t.co", "google.com/spreadsheets",
   "dropbox.com", "drive.google", "onedrive.live"]

def isUnstableUrl (u : String) : Bool := unstableWords.any (containsCI u)

/-- `PORTAL_PROFILES` (each pattern is a literal, case-insensitive). -/
def portalProfiles : List (String × String) :=
  [("dati.gov.it", "DCAT-AP_IT"), ("govdata.de", "DCAT-AP_DE"),
   ("data.gouv.fr", "DCAT-AP_FR"), ("data.gov.be", "DCAT-AP_BE"),
   ("data.overheid.nl", "DCAT-AP_DONL"), ("data.gov.uk", "DCAT-AP_UK"),
   ("datos.gob.es", "DCAT-AP_ES"), ("dados.gov.pt", "DCAT-AP_PT"),
   ("opendata.swiss", "DCAT-AP_CH"), ("data.gv.at", "DCAT-AP_AT"),
   ("data.public.lu", "DCAT-AP_LU")]

/-- `^[a-z]_[a-z0-9]+:` — Italian identifier heuristic (`re.match`). -/
def isItIdentifier (s : String) : Bool :=
  match s.data with
  | a :: b :: rest =>
    isLow a && b = '_' &&
      (match rest.span (fun c => isLow c || isDig c) with
       | (g, r) =>
         !g.isEmpty && (match r with | ':' :: _ => true | _ => false))
  | _ => false

def detectProfile (meta : CkanMeta) (portalUrl : String) : String :=
  match portalProfiles.find? (fun p => containsCI portalUrl p.1) with
  | some p => p.2
  | none =>
    if isItIdentifier (extrasValue meta "identifier") then "DCAT-AP_IT"
    else if extrasValue meta "holder_name" ≠ "" then "DCAT-AP_IT"
    else "DCAT-AP_2x"

/-- `PROFILE_EXTRA_FIELDS` (extras key, label, cardinality). -/
def profileExtraFields (profile : String) : List (String × String × String) :=
  if profile = "DCAT-AP_IT" then
    [("holder_name", "Dataset holder (dcatapit:datasetHolder)", "mandatory"),
     ("identifier", "Identifier (dct:identifier)", "mandatory"),
     ("theme", "Theme (dcat:theme)", "mandatory")]
  else if profile = "DCAT-AP_DE" then
    [("identifier", "Identifier (dct:identifier)", "mandatory")]
  else if profile = "DCAT-AP_BE" then
    [("identifier", "Identifier (dct:identifier)", "mandatory")]
  else if profile = "DCAT-AP_DONL" then
    [("identifier", "Identifier (dct:identifier)", "mandatory"),
     ("geographical_geonames_url", "Spatial (dct:spatial)", "mandatory")]
  else if profile = "DCAT-AP_ES" then
    [("identifier", "Identifier (dct:identifier)", "mandatory")]
  else []

/-! ## Phase 5 (`MetadataValidator._phase5_metadata`)

Each check returns the findings it appends and the (non-negative) point
deduction it applies to the 20-point budget; the source applies the same
deductions by sequential `score -= k` statements. -/

def titleCheck (meta : CkanMeta) : List Finding × Nat :=
  let title := pyStrip (meta.title.getD "")
  if title = "" then
    ([majorF PHASE5 "missing_title" "Title (dct:title) is missing"
        "" "Add a clear, descriptive title"], 4)
  else if title.length < 10 then
    ([minorF PHASE5 "short_title"
        ("Title is very short (" ++ toString title.length ++ " chars): " ++ title)
        "" "Expand the title to be more descriptive"], 0)
  else ([okF PHASE5 "title_ok" ("Title present: " ++ title)], 0)

def descCheck (meta : CkanMeta) : List Finding × Nat :=
  let title := pyStrip (meta.title.getD "")
  let notes := pyStrip (meta.notes.getD "")
  if notes = "" then
    ([majorF PHASE5 "missing_description" "Description (dct:description) is missing"
        "" "Add a description explaining the dataset content, coverage, and purpose"], 4)
  else if notes.length < 80 then
    ([majorF PHASE5 "short_description"
        ("Description too short (" ++ toString notes.length ++
          " chars) — minimum 80 recommended")
        "" "Expand: what data, time period, collection method, column meanings, caveats"], 2)
  else if pyStrip notes = pyStrip title then
    ([majorF PHASE5 "description_equals_title"
        "Description is identical to title — not a real description"
        "" "Write a proper description explaining content, coverage, and purpose"], 3)
  else ([okF PHASE5 "description_ok"
      ("Description present (" ++ toString notes.length ++ " chars)")], 0)

def pubCheck (meta : CkanMeta) : List Finding × Nat :=
  let pub := meta.organizationTitle.getD ""
  if pub = "" then
    ([majorF PHASE5 "missing_publisher" "Publisher (dct:publisher) is missing"
        "" "Assign the dataset to an organization in CKAN"], 4)
  else ([okF PHASE5 "publisher_ok" ("Publisher: " ++ pub)], 0)

def licCheck (meta : CkanMeta) : List Finding × Nat :=
  let lic := pyStrip (if meta.licenseId.getD "" ≠ "" then meta.licenseId.getD ""
    else meta.licenseTitle.getD "")
  if lic = "" then
    ([majorF PHASE5 "missing_license" "License (dct:license) is missing at dataset level"
        "" "Add a license — CC BY 4.0 is common for EU open data"], 4)
  else ([okF PHASE5 "license_ok" ("License: " ++ lic)], 0)

def tagsCheck (meta : CkanMeta) : List Finding × Nat :=
  if meta.tags.length < 3 then
    ([minorF PHASE5 "few_tags"
        ("Only " ++ toString meta.tags.length ++
          " tag(s) — 3+ recommended for discoverability")
        "" "Add relevant keywords describing topic, geography, and time period"], 1)
  else ([okF PHASE5 "tags_ok"
      (toString meta.tags.length ++ " tags: " ++ renderList (meta.tags.take 5))], 0)

def dateCheck (meta : CkanMeta) (key : String) : List Finding × Nat :=
  let topVal := if key = "issued" then meta.issued.getD "" else meta.modified.getD ""
  let val := pyStrip (if topVal ≠ "" then topVal else extrasValue meta key)
  if val = "" then
    ([majorF PHASE5 ("missing_" ++ key)
        ("Date field " ++ key ++ " is missing or empty string")
        "" ("Set " ++ key ++ " to the actual date in ISO 8601 format: YYYY-MM-DD")], 2)
  else if isNonIsoMetaDate val then
    ([majorF PHASE5 ("non_iso_" ++ key)
        ("Field " ++ key ++ " is not ISO 8601: " ++ val)
        "" "Convert to YYYY-MM-DD format"], 2)
  else if !isIsoDate val then
    ([minorF PHASE5 ("invalid_" ++ key)
        ("Field " ++ key ++ " has unexpected format: " ++ val)], 1)
  else ([okF PHASE5 (key ++ "_ok") (key ++ ": " ++ val)], 0)

def freqCheck (meta : CkanMeta) : List Finding × Nat :=
  let freq := if extrasValue meta "frequency" ≠ "" then extrasValue meta "frequency"
    else extrasValue meta "accrualPeriodicity"
  if freq = "" then
    ([minorF PHASE5 "missing_frequency"
        "Update frequency (dct:accrualPeriodicity) is missing"
        "" "Set frequency: ANNUAL, MONTHLY, WEEKLY, DAILY, IRREGULAR, etc."], 0)
  else ([okF PHASE5 "frequency_ok" ("Update frequency: " ++ freq)], 0)

def tempCovCheck (meta : CkanMeta) : List Finding × Nat :=
  if extrasValue meta "temporal_coverage" = "" then
    ([minorF PHASE5 "missing_temporal_coverage"
        "Temporal coverage (dct:temporal) is missing"
        "" "Specify the time range covered by the dataset"], 0)
  else ([], 0)

def spatialCheck (meta : CkanMeta) : List Finding × Nat :=
  let spatial := if extrasValue meta "geographical_geonames_url" ≠ "" then
      extrasValue meta "geographical_geonames_url"
    else extrasValue meta "spatial"
  if spatial = "" then
    ([minorF PHASE5 "missing_spatial" "Spatial coverage (dct:spatial) is missing"
        "" "Add a GeoNames URI or WKT bounding box"], 0)
  else ([], 0)

def langCheck (meta : CkanMeta) : List Finding × Nat :=
  let lang := extrasValue meta "language"
  if lang = "" then
    ([minorF PHASE5 "missing_language" "Language (dct:language) is missing"
        "" "Add language code, e.g. ITA, ENG"], 0)
  else ([okF PHASE5 "language_ok" ("Language: " ++ lang)], 0)

def identifierCheck (meta : CkanMeta) : List Finding × Nat :=
  let identifier := extrasValue meta "identifier"
  if identifier = "" then
    ([minorF PHASE5 "missing_identifier" "Identifier (dct:identifier) is missing"], 0)
  else ([okF PHASE5 "identifier_ok" ("Identifier: " ++ identifier)], 0)

def profileFieldCheck (meta : CkanMeta) (profile : String)
    (field : String × String × String) : List Finding × Nat :=
  if extrasValue meta field.1 = "" then
    if field.2.2 = "mandatory" then
      ([majorF PHASE5 ("missing_" ++ field.1)
          ("[" ++ profile ++ "] Mandatory field missing: " ++ field.2.1)
          "" ("Add " ++ field.1 ++ " field to CKAN metadata")], 3)
    else
      ([minorF PHASE5 ("missing_" ++ field.1)
          ("[" ++ profile ++ "] Recommended field missing: " ++ field.2.1)], 0)
  else ([], 0)

def profileFieldsCheck (meta : CkanMeta) (profile : String) : List Finding × Nat :=
  let parts := (profileExtraFields profile).map (profileFieldCheck meta profile)
  ((parts.map Prod.fst).flatten, (parts.map Prod.snd).sum)

def resourceCheck (res : CkanResource) : List Finding × Nat :=
  let resName := if res.name.getD "" ≠ "" then res.name.getD ""
    else if res.id.getD "" ≠ "" then res.id.getD "" else "?"
  let pfx := "resource_" ++ String.mk ((res.id.getD "x").data.take 8)
  let fmt := pyStrip (if res.format.getD "" ≠ "" then res.format.getD ""
    else res.distributionFormat.getD "")
  let fmtPart : List Finding × Nat :=
    if fmt = "" then
      ([majorF PHASE5 (pfx ++ "_missing_format")
          ("Resource " ++ resName ++ ": format (dct:format) is missing")
          "" "Set format field: CSV, JSON, XML, etc."], 1)
    else ([], 0)
  let mime := pyStrip (res.mimetype.getD "")
  let mimePart : List Finding × Nat :=
    if mime = "" then
      ([minorF PHASE5 (pfx ++ "_missing_mime")
          ("Resource " ++ resName ++ ": MIME type (dcat:mediaType) is missing")
          "" "Set mimetype: text/csv, application/json, etc."], 0)
    else ([], 0)
  let resLic := pyStrip (if res.licenseId.getD "" ≠ "" then res.licenseId.getD ""
    else res.license.getD "")
  let licPart : List Finding × Nat :=
    if resLic = "" then
      ([majorF PHASE5 (pfx ++ "_missing_license")
          ("Resource " ++ resName ++ ": license (dct:license) missing on distribution")
          "DCAT-AP requires license on each distribution, not only at dataset level"
          "Add license_id to the resource/distribution record"], 2)
    else ([], 0)
  let sizePart : List Finding × Nat :=
    if res.sizeInt = 0 then
      ([minorF PHASE5 (pfx ++ "_size_zero")
          ("Resource " ++ resName ++ ": size is 0 or missing")
          "" "Update byteSize after upload; ensure harvester captures file size"], 0)
    else ([], 0)
  let url := pyStrip (res.url.getD "")
  let urlPart : List Finding × Nat :=
    if url = "" then
      ([majorF PHASE5 (pfx ++ "_missing_url")
          ("Resource " ++ resName ++ ": URL is missing")
          "" "Add the download URL for this resource"], 0)
    else if isUnstableUrl url then
      ([majorF PHASE5 (pfx ++ "_unstable_url")
          ("Resource " ++ resName ++ ": unstable URL (cloud storage or short link)")
          url "Use permanent institutional hosting"], 2)
    else ([], 0)
  (fmtPart.1 ++ mimePart.1 ++ licPart.1 ++ sizePart.1 ++ urlPart.1,
   fmtPart.2 + mimePart.2 + licPart.2 + sizePart.2 + urlPart.2)

def phase5F (meta : CkanMeta) (profile : String) : List Finding × ScoreDimension :=
  let t := titleCheck meta
  let d := descCheck meta
  let pub := pubCheck meta
  let lic := licCheck meta
  let tg := tagsCheck meta
  let di := dateCheck meta "issued"
  let dm := dateCheck meta "modified"
  let fr := freqCheck meta
  let tc := tempCovCheck meta
  let sp := spatialCheck meta
  let lang := langCheck meta
  let idf := identifierCheck meta
  let pf := profileFieldsCheck meta profile
  let res := meta.resources.map resourceCheck
  let dedTotal : Nat := t.2 + d.2 + pub.2 + lic.2 + tg.2 + di.2 + dm.2 + fr.2 +
    tc.2 + sp.2 + lang.2 + idf.2 + pf.2 + (res.map Prod.snd).sum
  ([okF PHASE5 "profile_detected" ("DCAT-AP profile detected: " ++ profile)] ++
     t.1 ++ d.1 ++ pub.1 ++ lic.1 ++ tg.1 ++ di.1 ++ dm.1 ++ fr.1 ++ tc.1 ++
     sp.1 ++ lang.1 ++ idf.1 ++ pf.1 ++ (res.map Prod.fst).flatten,
   ⟨"Metadata completeness", 20, max 0 ((20 : Int) - (dedTotal : Int)), []⟩)

/-- `MetadataValidator.run`: detect the profile, run phase 5, append to the
report. -/
def MetadataValidator.run (meta : CkanMeta) (portalUrl : String)
    (report : QualityReport) : QualityReport :=
  let profile := detectProfile meta portalUrl
  let p5 := phase5F meta profile
  { report with
    profile := profile
    findings := report.findings ++ p5.1
    dimensions := report.dimensions ++ [p5.2] }

/-! ## Accessibility checker (`AccessibilityChecker.run`) -/

/-- Outcome of one HTTP request: a status code, a timeout, or another
transport failure. -/
inductive HttpRes where
  | status (code : Nat)
  | timeout
  | exc
deriving DecidableEq, Repr

/-- The network environment: outcome of the HEAD and (if issued) GET request
for the resource at a given position. -/
structure AccessProbe where
  head : Nat → HttpRes
  get : Nat → HttpRes

/-- The response the try-block ends with: HEAD, retried as GET when the HEAD
status is >= 400; a HEAD timeout or failure short-circuits. -/
def probeResult (pr : AccessProbe) (i : Nat) : HttpRes :=
  match pr.head i with
  | HttpRes.status c => if 400 ≤ c then pr.get i else HttpRes.status c
  | r => r

structure AccState where
  score : Int
  accessible : Nat
  findings : List Finding
deriving Repr

def resUrlStripped (res : CkanResource) : String := pyStrip (res.url.getD "")

/-- Python truthiness of `res.get("url")` (non-empty string). -/
def resUrlTruthy (res : CkanResource) : Bool := res.url.getD "" ≠ ""

def accessStep (pr : AccessProbe) (i : Nat) (res : CkanResource) (st : AccState) :
    AccState :=
  let url := resUrlStripped res
  let nm := if res.name.getD "" ≠ "" then res.name.getD ""
    else String.mk (url.data.take 60)
  let pfx := "access_" ++ String.mk ((res.id.getD "x").data.take 8)
  if url = "" then st
  else
    match probeResult pr i with
    | HttpRes.status c =>
      if c = 200 then
        { st with
          accessible := st.accessible + 1
          findings := st.findings ++
            [okF PHASE5 (pfx ++ "_accessible")
              ("Resource accessible: " ++ nm ++ " (HTTP 200)")] }
      else
        { score := st.score - 5
          accessible := st.accessible
          findings := st.findings ++
            [blockerF PHASE5 (pfx ++ "_not_accessible")
              ("Resource not accessible: " ++ nm ++ " (HTTP " ++ toString c ++ ")")
              url ("Fix the URL or restore the file. HTTP " ++ toString c ++ ".")] }
    | HttpRes.timeout =>
      { score := st.score - 5
        accessible := st.accessible
        findings := st.findings ++
          [majorF PHASE5 (pfx ++ "_timeout")
            ("Resource timed out: " ++ nm) url
            "Check server availability; increase timeout or fix hosting"] }
    | HttpRes.exc =>
      { score := st.score - 3
        accessible := st.accessible
        findings := st.findings ++
          [majorF PHASE5 (pfx ++ "_error") ("Resource check failed: " ++ nm) url] }

def accessLoop (pr : AccessProbe) : Nat → List CkanResource → AccState → AccState
  | _, [], st => st
  | i, r :: rest, st => accessLoop pr (i + 1) rest (accessStep pr i r st)

def AccessibilityChecker.run (pr : AccessProbe) (meta : CkanMeta)
    (report : QualityReport) : QualityReport :=
  if meta.resources = [] then
    { report with
      findings := report.findings ++
        [majorF PHASE5 "no_resources" "Dataset has no resources/distributions"
          "" "Add at least one downloadable distribution"]
      dimensions := report.dimensions ++ [⟨"Accessibility", 20, 0, []⟩] }
  else
    let st := accessLoop pr 0 meta.resources ⟨20, 0, []⟩
    let total := (meta.resources.filter resUrlTruthy).length
    let fs := st.findings ++
      [okF PHASE5 "accessibility_summary"
        ("Accessibility: " ++ toString st.accessible ++ "/" ++ toString total ++
          " resources reachable")]
    let score := if st.accessible = 0 && 0 < total then 0 else st.score
    { report with
      findings := report.findings ++ fs
      dimensions := report.dimensions ++ [⟨"Accessibility", 20, max 0 score, []⟩] }

/-! ## General lemmas about the report model -/

theorem sev_filter_length (l : List Finding) (s : Severity) :
    (l.filter (fun f => f.severity = s)).length =
      ((l.map Finding.severity).filter (fun x => x = s)).length := by
  induction l with
  | nil => rfl
  | cons a t ih => by_cases h : a.severity = s <;> simp [List.filter_cons, h, ih]

theorem has_blockers_iff (r : QualityReport) :
    r.has_blockers = true ↔ ∃ f ∈ r.findings, f.severity = Severity.blocker := by
  simp [QualityReport.has_blockers, QualityReport.blockers, List.length_pos]

theorem majors_ne_iff (r : QualityReport) :
    r.majors ≠ [] ↔ ∃ f ∈ r.findings, f.severity = Severity.major := by
  simp [QualityReport.majors]

/-- C1: the verdict is 2 with at least one blocker finding, else 1 with at
least one major finding, else 0; `has_blockers` holds iff a blocker finding
exists; the verdict depends on the finding severities alone; and it can be
recomputed from the exported (non-ok) findings array. -/
theorem c1_verdict_contract (r r2 : QualityReport)
    (hsev : r.findings.map Finding.severity = r2.findings.map Finding.severity) :
    exitCode r = (if ∃ f ∈ r.findings, f.severity = Severity.blocker then 2
      else if ∃ f ∈ r.findings, f.severity = Severity.major then 1 else 0) ∧
    (r.has_blockers = true ↔ ∃ f ∈ r.findings, f.severity = Severity.blocker) ∧
    exitCode r = exitCode r2 ∧
    exitCode r = recomputeVerdict r.exportFindings := by
  have hbl : r.blockers.length = r2.blockers.length := by
    unfold QualityReport.blockers
    rw [sev_filter_length, sev_filter_length, hsev]
  have hml : r.majors.length = r2.majors.length := by
    unfold QualityReport.majors
    rw [sev_filter_length, sev_filter_length, hsev]
  have hb2 : r.has_blockers = r2.has_blockers := by
    simp only [QualityReport.has_blockers, hbl]
  have hmaj : (r.majors ≠ []) ↔ (r2.majors ≠ []) := by
    rw [← List.length_pos, ← List.length_pos, hml]
  have hexp_b : (r.exportFindings.any (fun f => f.severity = Severity.blocker) = true) ↔
      ∃ f ∈ r.findings, f.severity = Severity.blocker := by
    simp only [QualityReport.exportFindings, List.any_eq_true, List.mem_filter,
      decide_eq_true_eq]
    constructor
    · rintro ⟨f, ⟨hf, _⟩, hb⟩
      exact ⟨f, hf, hb⟩
    · rintro ⟨f, hf, hb⟩
      exact ⟨f, ⟨hf, by simp [hb]⟩, hb⟩
  have hexp_m : (r.exportFindings.any (fun f => f.severity = Severity.major) = true) ↔
      ∃ f ∈ r.findings, f.severity = Severity.major := by
    simp only [QualityReport.exportFindings, List.any_eq_true, List.mem_filter,
      decide_eq_true_eq]
    constructor
    · rintro ⟨f, ⟨hf, _⟩, hb⟩
      exact ⟨f, hf, hb⟩
    · rintro ⟨f, hf, hb⟩
      exact ⟨f, ⟨hf, by simp [hb]⟩, hb⟩
  refine ⟨?_, has_blockers_iff r, ?_, ?_⟩
  · simp only [exitCode, has_blockers_iff, majors_ne_iff]
  · simp only [exitCode, hb2, hmaj]
  · simp only [exitCode, recomputeVerdict, hexp_b, hexp_m, has_blockers_iff,
      majors_ne_iff]

def c1RepA : QualityReport :=
  { source := "s", findings := [majorF P1 "bom_present" "m"] }

def c1RepB : QualityReport :=
  { source := "s2", findings := [majorF P1 "no_header" "n"] }

/-- Witness for C1 at a concrete report. -/
theorem c1_verdict_contract_witness :
    (exitCode c1RepA = (if ∃ f ∈ c1RepA.findings, f.severity = Severity.blocker then 2
      else if ∃ f ∈ c1RepA.findings, f.severity = Severity.major then 1 else 0)) ∧
    (c1RepA.has_blockers = true ↔
      ∃ f ∈ c1RepA.findings, f.severity = Severity.blocker) ∧
    exitCode c1RepA = exitCode c1RepB ∧
    exitCode c1RepA = recomputeVerdict c1RepA.exportFindings :=
  c1_verdict_contract c1RepA c1RepB (by decide)

/-! ## Scoring lemmas -/

theorem ded_nonneg (codes : List String) (c : String) (k : Int) (hk : 0 ≤ k) :
    0 ≤ ded codes c k := by
  unfold ded; split <;> simp [hk]

theorem ded_le (codes : List String) (c : String) (k : Int) (hk : 0 ≤ k) :
    ded codes c k ≤ k := by
  unfold ded; split <;> simp [hk]

theorem ded_mono (codes codes2 : List String) (hsub : codes ⊆ codes2)
    (c : String) (k : Int) (hk : 0 ≤ k) : ded codes c k ≤ ded codes2 c k := by
  unfold ded
  split_ifs with h1 h2
  · exact le_refl k
  · exact absurd (hsub h1) h2
  · exact hk
  · exact le_refl 0

/-- C7: every dimension the scoring engine appends has earned score in
`[0, max]`, and enlarging the set of distinct triggering codes never
increases any of the three dimension scores. -/
theorem c7_score_monotone (fs : List Finding) (codes codes2 : List String)
    (hsub : codes ⊆ codes2) :
    (∀ d ∈ computeScores fs, 0 ≤ d.score ∧ d.score ≤ d.max_score) ∧
    fmtScore codes2 ≤ fmtScore codes ∧
    structScore codes2 ≤ structScore codes ∧
    contentScore codes2 ≤ contentScore codes := by
  have hb : ∀ codes3 : List String, (0 ≤ fmtScore codes3 ∧ fmtScore codes3 ≤ 15) ∧
      (0 ≤ structScore codes3 ∧ structScore codes3 ≤ 20) ∧
      (0 ≤ contentScore codes3 ∧ contentScore codes3 ≤ 25) := by
    intro codes3
    refine ⟨⟨le_max_left 0 _, ?_⟩, ⟨le_max_left 0 _, ?_⟩, ⟨le_max_left 0 _, ?_⟩⟩
    · have h1 := ded_nonneg codes3 "encoding_not_utf8" 10 (by norm_num)
      have h2 := ded_nonneg codes3 "bom_present" 5 (by norm_num)
      have h3 := ded_nonneg codes3 "no_header" 3 (by norm_num)
      unfold fmtScore
      rw [max_le_iff]
      omega
    · have h1 := ded_nonneg codes3 "wide_format_years" 5 (by norm_num)
      have h2 := ded_nonneg codes3 "wide_format_months" 5 (by norm_num)
      have h3 := ded_nonneg codes3 "duplicate_columns" 5 (by norm_num)
      have h4 := ded_nonneg codes3 "aggregate_rows" 5 (by norm_num)
      have h5 := ded_nonneg codes3 "bad_column_names" 3 (by norm_num)
      have h6 := ded_nonneg codes3 "footnote_markers" 2 (by norm_num)
      unfold structScore
      rw [max_le_iff]
      omega
    · have h1 := ded_nonneg codes3 "comma_decimal" 5 (by norm_num)
      have h2 := ded_nonneg codes3 "non_iso_date" 5 (by norm_num)
      have h3 := ded_nonneg codes3 "high_null_rate" 5 (by norm_num)
      have h4 := ded_nonneg codes3 "units_in_cells" 3 (by norm_num)
      have h5 := ded_nonneg codes3 "placeholder_values" 3 (by norm_num)
      have h6 := ded_nonneg codes3 "invalid_reference_codes" 4 (by norm_num)
      have h7 := ded_nonneg codes3 "numeric_as_varchar" 2 (by norm_num)
      have h8 := ded_nonneg codes3 "fuzzy_category_values" 2 (by norm_num)
      unfold contentScore
      rw [max_le_iff]
      omega
  refine ⟨?_, ?_, ?_, ?_⟩
  · intro d hd
    have h := hb (codesOf fs)
    simp only [computeScores, List.mem_cons, List.mem_singleton,
      List.not_mem_nil] at hd
    rcases hd with h1 | h1 | h1 | h1
    · subst h1; exact ⟨h.1.1, h.1.2⟩
    · subst h1; exact ⟨h.2.1.1, h.2.1.2⟩
    · subst h1; exact ⟨h.2.2.1, h.2.2.2⟩
    · cases h1
  · unfold fmtScore
    refine max_le_max (le_refl 0) ?_
    have m1 := ded_mono codes codes2 hsub "encoding_not_utf8" 10 (by norm_num)
    have m2 := ded_mono codes codes2 hsub "bom_present" 5 (by norm_num)
    have m3 := ded_mono codes codes2 hsub "no_header" 3 (by norm_num)
    omega
  · unfold structScore
    refine max_le_max (le_refl 0) ?_
    have m1 := ded_mono codes codes2 hsub "wide_format_years" 5 (by norm_num)
    have m2 := ded_mono codes codes2 hsub "wide_format_months" 5 (by norm_num)
    have m3 := ded_mono codes codes2 hsub "duplicate_columns" 5 (by norm_num)
    have m4 := ded_mono codes codes2 hsub "aggregate_rows" 5 (by norm_num)
    have m5 := ded_mono codes codes2 hsub "bad_column_names" 3 (by norm_num)
    have m6 := ded_mono codes codes2 hsub "footnote_markers" 2 (by norm_num)
    omega
  · unfold contentScore
    refine max_le_max (le_refl 0) ?_
    have m1 := ded_mono codes codes2 hsub "comma_decimal" 5 (by norm_num)
    have m2 := ded_mono codes codes2 hsub "non_iso_date" 5 (by norm_num)
    have m3 := ded_mono codes codes2 hsub "high_null_rate" 5 (by norm_num)
    have m4 := ded_mono codes codes2 hsub "units_in_cells" 3 (by norm_num)
    have m5 := ded_mono codes codes2 hsub "placeholder_values" 3 (by norm_num)
    have m6 := ded_mono codes codes2 hsub "invalid_reference_codes" 4 (by norm_num)
    have m7 := ded_mono codes codes2 hsub "numeric_as_varchar" 2 (by norm_num)
    have m8 := ded_mono codes codes2 hsub "fuzzy_category_values" 2 (by norm_num)
    omega

/-- Witness for C7 at concrete findings and code sets. -/
theorem c7_score_monotone_witness :
    (∀ d ∈ computeScores [majorF P1 "bom_present" "m"], 0 ≤ d.score ∧ d.score ≤ d.max_score) ∧
    fmtScore ["bom_present", "no_header"] ≤ fmtScore ["bom_present"] ∧
    structScore ["bom_present", "no_header"] ≤ structScore ["bom_present"] ∧
    contentScore ["bom_present", "no_header"] ≤ contentScore ["bom_present"] :=
  c7_score_monotone [majorF P1 "bom_present" "m"] ["bom_present"]
    ["bom_present", "no_header"] (by intro c hc; simp at hc; simp [hc])

/-- C10: every report returned by `CsvValidator.run` carries exactly three
dimensions, in the fixed order File format compliance (max 15), Data
structure quality (max 20), Data content quality (max 25); when phase 0
ends with a blocker each earned score is 0, so the total score and the
percentage are 0. -/
theorem c10_three_dimensions (env : Env) (r : QualityReport)
    (h : (CsvValidator.run env).result = some r) :
    r.dimensions.map (fun d => (d.name, d.max_score)) =
      [("File format compliance", (15 : Int)), ("Data structure quality", 20),
       ("Data content quality", 25)] ∧
    ((({ source := env.csvPath,
         findings := (phase0 env).findings } : QualityReport).has_blockers = true) →
      (∀ d ∈ r.dimensions, d.score = 0) ∧ r.total_score = 0 ∧ r.score_pct = 0) := by
  unfold CsvValidator.run at h
  dsimp only at h
  split at h
  · rw [Option.some_inj] at h
    subst h
    refine ⟨by simp, fun _ => ⟨?_,
      by simp [QualityReport.total_score],
      by simp [QualityReport.score_pct, QualityReport.max_score,
        QualityReport.total_score, pyRound]⟩⟩
    intro d hd
    simp only [List.mem_cons, List.not_mem_nil, or_false] at hd
    rcases hd with h1 | h1 | h1 <;> (subst h1; rfl)
  · rename_i hnb
    split at h
    · simp at h
    · rw [Option.some_inj] at h
      subst h
      refine ⟨by simp [computeScores], fun hb => absurd hb hnb⟩

/-! ## Concrete environments for witnesses and counterexamples -/

/-- A small clean run: 3 rows, 2 columns, strict parse succeeds. -/
def baseEnv : Env where
  csvPath := "data.csv"
  tmpPath := "tmp123.csv"
  sampleRowsCap := 50000
  pathExists := true
  fileSize := 100
  chunkHasNull := false
  strictParse := some ⟨3, 2⟩
  lenientParse := none
  detectedEnc := "utf-8"
  encConfPct := 100
  reencParse := none
  hasBom := false
  hasCrlf := false
  sniff := some ⟨",", true⟩
  describeMain := some [("id", "BIGINT"), ("importo", "VARCHAR")]
  rawHeaders := ["id", "importo"]
  tailLines := []
  headLines := []
  summarize := none
  varcharLoadOk := true
  commaFails := false
  dateFails := false
  unitsFails := false
  phFails := false
  numvarFails := false
  sampleGrid := [[some "1", some "100"], [some "2", some "200"], [some "3", some "300"]]
  typedGrid := [[some "1", some "100"], [some "2", some "200"], [some "3", some "300"]]
  jaroSim := fun _ _ => 0
  codeVals := fun _ => []
  codeQueryFails := fun _ => false

def notFoundEnv : Env := { baseEnv with pathExists := false }

def emptyFileEnv : Env := { baseEnv with fileSize := 0 }

def c10Rep : QualityReport where
  source := "data.csv"
  findings := [blockerF P0 "file_not_found" "File not found: data.csv"]
  dimensions := [⟨"File format compliance", 15, 0, []⟩,
    ⟨"Data structure quality", 20, 0, []⟩, ⟨"Data content quality", 25, 0, []⟩]

/-- Witness for C10: the nonexistent-file run returns exactly the three
zero-scored dimensions. -/
theorem c10_three_dimensions_witness :
    c10Rep.dimensions.map (fun d => (d.name, d.max_score)) =
      [("File format compliance", (15 : Int)), ("Data structure quality", 20),
       ("Data content quality", 25)] ∧
    ((({ source := notFoundEnv.csvPath,
         findings := (phase0 notFoundEnv).findings } : QualityReport).has_blockers = true) →
      (∀ d ∈ c10Rep.dimensions, d.score = 0) ∧ c10Rep.total_score = 0 ∧
        c10Rep.score_pct = 0) :=
  c10_three_dimensions notFoundEnv c10Rep (by decide)

/-- C3: a nonexistent path yields exactly one finding, the blocker
`file_not_found`; an existing zero-byte file yields exactly the blocker
`file_empty` and no finding of any later phase. Both theorems hold for
every environment with the stated pre-check outcome, regardless of all
parse fields: the pre-check short-circuits before any parse attempt. -/
theorem c3_precheck_short_circuit (e1 e2 : Env) (h1 : e1.pathExists = false)
    (h2 : e2.pathExists = true) (h3 : e2.fileSize = 0) :
    (∃ r, (CsvValidator.run e1).result = some r ∧
      r.findings = [blockerF P0 "file_not_found" ("File not found: " ++ e1.csvPath)]) ∧
    (∃ r, (CsvValidator.run e2).result = some r ∧
      r.findings = [blockerF P0 "file_empty" "File is empty (0 bytes)"] ∧
      ∀ f ∈ r.findings, f.phase = P0) := by
  constructor
  · have hp0 : phase0 e1 =
        { findings := [blockerF P0 "file_not_found" ("File not found: " ++ e1.csvPath)] } := by
      unfold phase0
      rw [h1]
      rfl
    have hcond : ({ source := e1.csvPath
                    findings := [blockerF P0 "file_not_found"
                      ("File not found: " ++ e1.csvPath)] } :
          QualityReport).has_blockers = true := by
      simp [QualityReport.has_blockers, QualityReport.blockers]
    refine ⟨{ source := e1.csvPath
              findings := [blockerF P0 "file_not_found" ("File not found: " ++ e1.csvPath)]
              dimensions := [⟨"File format compliance", 15, 0, []⟩,
                ⟨"Data structure quality", 20, 0, []⟩,
                ⟨"Data content quality", 25, 0, []⟩] }, ?_, rfl⟩
    simp [CsvValidator.run, hp0, hcond]
  · have hp0 : phase0 e2 =
        { findings := [blockerF P0 "file_empty" "File is empty (0 bytes)"] } := by
      unfold phase0
      rw [h2, h3]
      rfl
    have hcond : ({ source := e2.csvPath
                    findings := [blockerF P0 "file_empty"
                      "File is empty (0 bytes)"] } :
          QualityReport).has_blockers = true := by
      simp [QualityReport.has_blockers, QualityReport.blockers]
    refine ⟨{ source := e2.csvPath
              findings := [blockerF P0 "file_empty" "File is empty (0 bytes)"]
              dimensions := [⟨"File format compliance", 15, 0, []⟩,
                ⟨"Data structure quality", 20, 0, []⟩,
                ⟨"Data content quality", 25, 0, []⟩] }, ?_, rfl, by simp [blockerF]⟩
    simp [CsvValidator.run, hp0, hcond]

/-- Witness for C3 at the concrete environments. -/
theorem c3_precheck_short_circuit_witness :
    (∃ r, (CsvValidator.run notFoundEnv).result = some r ∧
      r.findings = [blockerF P0 "file_not_found"
        ("File not found: " ++ notFoundEnv.csvPath)]) ∧
    (∃ r, (CsvValidator.run emptyFileEnv).result = some r ∧
      r.findings = [blockerF P0 "file_empty" "File is empty (0 bytes)"] ∧
      ∀ f ∈ r.findings, f.phase = P0) :=
  c3_precheck_short_circuit notFoundEnv emptyFileEnv (by decide) (by decide) (by decide)

/-- C9: metadata with no license and no description gets both
`missing_license` and `missing_description` as major findings, and the
appended Metadata completeness dimension earns at most 20 - 4 - 4 = 12. -/
theorem c9_missing_license_description (meta : CkanMeta) (portalUrl : String)
    (report : QualityReport) (h1 : meta.notes.getD "" = "")
    (h2 : meta.licenseId.getD "" = "") (h3 : meta.licenseTitle.getD "" = "") :
    (∃ f ∈ (MetadataValidator.run meta portalUrl report).findings,
      f.code = "missing_license" ∧ f.severity = Severity.major) ∧
    (∃ f ∈ (MetadataValidator.run meta portalUrl report).findings,
      f.code = "missing_description" ∧ f.severity = Severity.major) ∧
    ∃ s : Int, (MetadataValidator.run meta portalUrl report).dimensions =
      report.dimensions ++ [⟨"Metadata completeness", 20, s, []⟩] ∧ s ≤ 12 := by
  have hd : descCheck meta =
      ([majorF PHASE5 "missing_description" "Description (dct:description) is missing"
        "" "Add a description explaining the dataset content, coverage, and purpose"], 4) := by
    unfold descCheck
    rw [h1]
    rfl
  have hl : licCheck meta =
      ([majorF PHASE5 "missing_license" "License (dct:license) is missing at dataset level"
        "" "Add a license — CC BY 4.0 is common for EU open data"], 4) := by
    unfold licCheck
    rw [h2, h3]
    rfl
  refine ⟨?_, ?_, ?_⟩
  · refine ⟨majorF PHASE5 "missing_license" "License (dct:license) is missing at dataset level"
      "" "Add a license — CC BY 4.0 is common for EU open data", ?_, rfl, rfl⟩
    unfold MetadataValidator.run phase5F
    dsimp only
    rw [hl]
    simp
  · refine ⟨majorF PHASE5 "missing_description" "Description (dct:description) is missing"
      "" "Add a description explaining the dataset content, coverage, and purpose", ?_, rfl, rfl⟩
    unfold MetadataValidator.run phase5F
    dsimp only
    rw [hd]
    simp
  · have hdim : ∀ p : String, (phase5F meta p).2 =
        ⟨"Metadata completeness", 20, (phase5F meta p).2.score, []⟩ := by
      intro p
      rfl
    refine ⟨(phase5F meta (detectProfile meta portalUrl)).2.score, ?_, ?_⟩
    · unfold MetadataValidator.run
      dsimp only
      rw [hdim (detectProfile meta portalUrl)]
    · show (phase5F meta (detectProfile meta portalUrl)).2.score ≤ 12
      unfold phase5F
      dsimp only
      rw [hd, hl]
      dsimp only
      refine max_le (by norm_num) ?_
      omega

def c9Meta : CkanMeta := {}

def c9Report : QualityReport := { source := "ckan-package" }

/-- Witness for C9 at an entirely empty metadata record. -/
theorem c9_missing_license_description_witness :
    (∃ f ∈ (MetadataValidator.run c9Meta "" c9Report).findings,
      f.code = "missing_license" ∧ f.severity = Severity.major) ∧
    (∃ f ∈ (MetadataValidator.run c9Meta "" c9Report).findings,
      f.code = "missing_description" ∧ f.severity = Severity.major) ∧
    ∃ s : Int, (MetadataValidator.run c9Meta "" c9Report).dimensions =
      c9Report.dimensions ++ [⟨"Metadata completeness", 20, s, []⟩] ∧ s ≤ 12 :=
  c9_missing_license_description c9Meta "" c9Report (by decide) (by decide) (by decide)

/-! ## Accessibility lemmas -/

theorem truthy_of_stripped (r : CkanResource) (h : resUrlStripped r ≠ "") :
    resUrlTruthy r = true := by
  by_cases hu : r.url.getD "" = ""
  · exfalso
    apply h
    rw [resUrlStripped, hu]
    rfl
  · simp [resUrlTruthy, hu]

/-- Fold invariant: when every resource with a non-empty stripped URL probes
to a non-200 status, `accessible` never grows, earlier findings persist, and
(when such a resource exists) a `*_not_accessible` blocker is appended. -/
theorem accessLoop_all_bad (pr : AccessProbe) (rs : List CkanResource) :
    ∀ (i : Nat) (st : AccState),
    (∀ k r, rs.get? k = some r → resUrlStripped r ≠ "" →
      ∃ c, probeResult pr (i + k) = HttpRes.status c ∧ c ≠ 200) →
    (accessLoop pr i rs st).accessible = st.accessible ∧
    (∀ f ∈ st.findings, f ∈ (accessLoop pr i rs st).findings) ∧
    ((∃ r ∈ rs, resUrlStripped r ≠ "") →
      ∃ f ∈ (accessLoop pr i rs st).findings, f.severity = Severity.blocker ∧
        ∃ p, f.code = p ++ "_not_accessible") := by
  induction rs with
  | nil =>
    intro i st _
    refine ⟨rfl, fun f hf => hf, ?_⟩
    rintro ⟨r, hr, _⟩
    exact absurd hr (List.not_mem_nil r)
  | cons r rest ih =>
    intro i st H
    have hloop : accessLoop pr i (r :: rest) st =
        accessLoop pr (i + 1) rest (accessStep pr i r st) := rfl
    have H' : ∀ k r', rest.get? k = some r' → resUrlStripped r' ≠ "" →
        ∃ c, probeResult pr ((i + 1) + k) = HttpRes.status c ∧ c ≠ 200 := by
      intro k r' hk hu
      have h := H (k + 1) r' (by simpa using hk) hu
      rwa [show i + (k + 1) = (i + 1) + k by omega] at h
    by_cases hurl : resUrlStripped r = ""
    · have hstep : accessStep pr i r st = st := by
        unfold accessStep
        dsimp only
        rw [if_pos hurl]
      rw [hloop, hstep]
      obtain ⟨ha, hmono, hex⟩ := ih (i + 1) st H'
      refine ⟨ha, hmono, ?_⟩
      rintro ⟨r', hr', hu'⟩
      rcases List.mem_cons.mp hr' with heq | hr'
      · subst heq
        exact absurd hurl hu'
      · exact hex ⟨r', hr', hu'⟩
    · obtain ⟨c, hc, hc200⟩ := H 0 r rfl hurl
      rw [Nat.add_zero] at hc
      have hfind : ∃ g : Finding,
          (accessStep pr i r st).findings = st.findings ++ [g] ∧
          (accessStep pr i r st).accessible = st.accessible ∧
          g.severity = Severity.blocker ∧ ∃ p, g.code = p ++ "_not_accessible" := by
        unfold accessStep
        dsimp only
        rw [if_neg hurl, hc]
        dsimp only
        rw [if_neg hc200]
        exact ⟨_, rfl, rfl, rfl, _, rfl⟩
      obtain ⟨g, hg, hacc, hgsev, hgcode⟩ := hfind
      obtain ⟨ha, hmono, _⟩ := ih (i + 1) (accessStep pr i r st) H'
      rw [hloop]
      refine ⟨by rw [ha, hacc], ?_, ?_⟩
      · intro f hf
        apply hmono
        rw [hg]
        exact List.mem_append_left _ hf
      · intro _
        refine ⟨g, ?_, hgsev, hgcode⟩
        apply hmono
        rw [hg]
        exact List.mem_append_right _ (List.mem_singleton_self g)

/-- C8: when at least one resource has a non-empty URL and every such
resource answers with a non-200 status (after the GET retry on a >=400
HEAD), the Accessibility dimension is appended with earned score 0 and the
report gains a blocker finding whose code ends in `_not_accessible`. -/
theorem c8_all_unreachable (pr : AccessProbe) (meta : CkanMeta)
    (report : QualityReport)
    (hex : ∃ r ∈ meta.resources, resUrlStripped r ≠ "")
    (hall : ∀ k r, meta.resources.get? k = some r → resUrlStripped r ≠ "" →
      ∃ c, probeResult pr k = HttpRes.status c ∧ c ≠ 200) :
    (AccessibilityChecker.run pr meta report).dimensions =
      report.dimensions ++ [⟨"Accessibility", 20, 0, []⟩] ∧
    ∃ f ∈ (AccessibilityChecker.run pr meta report).findings,
      f.severity = Severity.blocker ∧ ∃ p, f.code = p ++ "_not_accessible" := by
  obtain ⟨r0, hr0, hu0⟩ := hex
  have hne : meta.resources ≠ [] := by
    intro h
    rw [h] at hr0
    exact absurd hr0 (List.not_mem_nil r0)
  have hall0 : ∀ k r, meta.resources.get? k = some r → resUrlStripped r ≠ "" →
      ∃ c, probeResult pr (0 + k) = HttpRes.status c ∧ c ≠ 200 := by
    intro k r hk hu
    rw [Nat.zero_add]
    exact hall k r hk hu
  obtain ⟨hacc, _, hbl⟩ :=
    accessLoop_all_bad pr meta.resources 0 ⟨20, 0, []⟩ hall0
  have hacc0 : (accessLoop pr 0 meta.resources ⟨20, 0, []⟩).accessible = 0 := hacc
  have htot : 0 < (meta.resources.filter resUrlTruthy).length := by
    have hmem : r0 ∈ meta.resources.filter resUrlTruthy :=
      List.mem_filter.mpr ⟨hr0, truthy_of_stripped r0 hu0⟩
    exact List.length_pos_of_mem hmem
  obtain ⟨g, hgmem, hgsev, hgcode⟩ := hbl ⟨r0, hr0, hu0⟩
  constructor
  · unfold AccessibilityChecker.run
    rw [if_neg hne]
    dsimp only
    rw [hacc0]
    simp [htot]
  · unfold AccessibilityChecker.run
    rw [if_neg hne]
    dsimp only
    refine ⟨g, ?_, hgsev, hgcode⟩
    refine List.mem_append_right _ (List.mem_append_left _ hgmem)

def c8Res1 : CkanResource :=
  { id := some "res00001", name := some "file1", url := some "http://portal.example/f1.csv" }

def c8Res2 : CkanResource :=
  { id := some "res00002", name := some "file2", url := some "http://portal.example/f2.csv" }

def c8Meta : CkanMeta := { resources := [c8Res1, c8Res2] }

def c8Report : QualityReport := { source := "ckan-package-2" }

/-- Every HEAD and GET answers HTTP 500. -/
def c8Probe : AccessProbe :=
  { head := fun _ => HttpRes.status 500, get := fun _ => HttpRes.status 500 }

/-- Witness for C8: two resources, both answering HTTP 500. -/
theorem c8_all_unreachable_witness :
    (AccessibilityChecker.run c8Probe c8Meta c8Report).dimensions =
      c8Report.dimensions ++ [⟨"Accessibility", 20, 0, []⟩] ∧
    ∃ f ∈ (AccessibilityChecker.run c8Probe c8Meta c8Report).findings,
      f.severity = Severity.blocker ∧ ∃ p, f.code = p ++ "_not_accessible" :=
  c8_all_unreachable c8Probe c8Meta c8Report (by decide)
    (by
      intro k r hk hu
      rcases k with _ | _ | k
      · simp only [c8Meta, List.get?] at hk
        cases hk
        exact ⟨500, rfl, by decide⟩
      · simp only [c8Meta, List.get?] at hk
        cases hk
        exact ⟨500, rfl, by decide⟩
      · simp [c8Meta, List.get?] at hk)

/-! ## C2: temp-copy cleanup -/

/-- Strict and lenient parses fail; `latin-1` detected; the re-encoded copy
parses but has zero data rows, so phase 0 ends with the `no_data_rows`
blocker after recording the original path. -/
def leakEnv : Env :=
  { baseEnv with
    strictParse := none
    lenientParse := none
    detectedEnc := "latin-1"
    reencParse := some ⟨0, 3⟩ }

/-- Same, but the re-encoded copy parses fine and then the unguarded
phase-1 DESCRIBE raises, so the exception propagates out of `run`. -/
def crashEnv : Env :=
  { baseEnv with
    strictParse := none
    lenientParse := none
    detectedEnc := "latin-1"
    reencParse := some ⟨3, 3⟩
    describeMain := none }

/-- Same, but phases 1-4 complete: the normal-completion path. -/
def cleanReencEnv : Env :=
  { baseEnv with
    strictParse := none
    lenientParse := none
    detectedEnc := "latin-1"
    reencParse := some ⟨3, 3⟩ }

/-- C2 (code bug): after phase 0 re-encodes the input (recording the
original path), the blocker-abort exit path and the internal-failure exit
path of `CsvValidator.run` return with the temporary copy never deleted
and `self.path` still pointing at it; only the normal-completion path
deletes the copy and restores the original path, contradicting the claim
that this happens on every exit path. -/
theorem c2_temp_copy_leaked :
    ((phase0 leakEnv).reencoded = true ∧
      (CsvValidator.run leakEnv).result.map QualityReport.has_blockers = some true ∧
      (CsvValidator.run leakEnv).tempDeleted = 0 ∧
      (CsvValidator.run leakEnv).finalPath = leakEnv.tmpPath ∧
      leakEnv.tmpPath ≠ leakEnv.csvPath) ∧
    ((phase0 crashEnv).reencoded = true ∧
      (CsvValidator.run crashEnv).result = none ∧
      (CsvValidator.run crashEnv).tempDeleted = 0 ∧
      (CsvValidator.run crashEnv).finalPath = crashEnv.tmpPath) ∧
    ((phase0 cleanReencEnv).reencoded = true ∧
      (CsvValidator.run cleanReencEnv).tempDeleted = 1 ∧
      (CsvValidator.run cleanReencEnv).finalPath = cleanReencEnv.csvPath) := by
  refine ⟨⟨by decide, by decide, by decide, by decide, by decide⟩,
    ⟨by decide, by decide, by decide, by decide⟩, by decide, by decide, by decide⟩


/-! ## Code inventories of the phases -/

theorem p0Finish_code (pre : List Finding) (l re : Bool) (d : DuckParse) :
    ∀ f ∈ (p0Finish pre l re d).findings,
      f ∈ pre ∨ f.code ∈ ["no_data_rows", "trivial_structure", "parseable"] := by
  intro f hf
  unfold p0Finish at hf
  split at hf
  · rcases List.mem_append.mp hf with h | h
    · exact Or.inl h
    · simp_all
  · split at hf
    · rcases List.mem_append.mp hf with h | h
      · exact Or.inl h
      · simp_all
    · rcases List.mem_append.mp hf with h | h
      · exact Or.inl h
      · simp_all

theorem phase0_code (env : Env) :
    ∀ f ∈ (phase0 env).findings,
      f.code ∈ ["file_not_found", "file_empty", "file_binary",
        "csv_needs_lenient_parsing", "encoding_not_utf8", "csv_unparseable",
        "no_data_rows", "trivial_structure", "parseable"] := by
  have hsub : ∀ x ∈ (["no_data_rows", "trivial_structure", "parseable"] : List String),
      x ∈ (["file_not_found", "file_empty", "file_binary",
        "csv_needs_lenient_parsing", "encoding_not_utf8", "csv_unparseable",
        "no_data_rows", "trivial_structure", "parseable"] : List String) := by decide
  intro f hf
  unfold phase0 at hf
  split at hf
  · simp_all
  · split at hf
    · simp_all
    · split at hf
      · simp_all
      · split at hf
        · rcases p0Finish_code _ _ _ _ f hf with h | h
          · simp_all
          · exact hsub _ h
        · split at hf
          · rcases p0Finish_code _ _ _ _ f hf with h | h
            · simp_all
            · exact hsub _ h
          · split at hf
            · simp_all
            · split at hf
              · rcases p0Finish_code _ _ _ _ f hf with h | h
                · simp_all
                · exact hsub _ h
              · simp_all

theorem phase1F_code (env : Env) (p0 : P0Result) (schema : List (String × String)) :
    ∀ f ∈ (phase1F env p0 schema).1,
      f.code ∈ ["encoding_utf8", "encoding_not_utf8", "bom_present", "no_bom",
        "crlf_endings", "lf_endings", "no_header", "separator", "dimensions"] := by
  intro f hf
  unfold phase1F at hf
  dsimp only at hf
  simp only [List.mem_append] at hf
  rcases hf with ((((hf | hf) | hf) | hf) | hf)
  · split at hf
    · simp_all
    · split at hf <;> simp_all
  · split at hf <;> simp_all
  · split at hf <;> simp_all
  · split at hf
    · split at hf <;> simp_all
    · simp_all
  · simp only [List.mem_cons, List.not_mem_nil, or_false] at hf
    rcases hf with rfl | rfl <;> simp

theorem dupPart_code (names : List String) :
    ∀ f ∈ dupPart names,
      f.code ∈ ["duplicate_columns", "no_duplicate_columns"] := by
  intro f hf
  unfold dupPart at hf
  dsimp only at hf
  split at hf <;> simp_all

theorem badNamesPart_code (names : List String) :
    ∀ f ∈ badNamesPart names,
      f.code ∈ ["bad_column_names", "column_names_ok"] := by
  intro f hf
  unfold badNamesPart at hf
  dsimp only at hf
  split at hf <;> simp_all

theorem wideApply_mem (names : List String) (fs : List Finding) :
    ∀ f ∈ wideApply names fs,
      f ∈ fs ∨ f.code ∈ ["wide_format_years", "wide_format_months", "no_wide_format"] := by
  intro f hf
  unfold wideApply at hf
  dsimp only at hf
  split at hf
  · rcases List.mem_filter.mp hf with ⟨hm, _⟩
    rcases List.mem_append.mp hm with h | h
    · exact Or.inl h
    · simp_all
  · split at hf
    · rcases List.mem_filter.mp hf with ⟨hm, _⟩
      rcases List.mem_append.mp hm with h | h
      · exact Or.inl h
      · simp_all
    · rcases List.mem_append.mp hf with h | h
      · exact Or.inl h
      · simp_all

theorem aggPart_code (env : Env) :
    ∀ f ∈ aggPart env, f.code ∈ ["aggregate_rows", "no_aggregate_rows"] := by
  intro f hf
  unfold aggPart at hf
  dsimp only at hf
  split at hf <;> simp_all

theorem fnPart_code (env : Env) :
    ∀ f ∈ fnPart env, f.code ∈ ["footnote_markers"] := by
  intro f hf
  unfold fnPart at hf
  dsimp only at hf
  split at hf <;> simp_all

theorem phase2F_mem (env : Env) (ctx : Ctx) (prior : List Finding) :
    ∀ f ∈ phase2F env ctx prior,
      f ∈ prior ∨ f.code ∈ ["duplicate_columns", "no_duplicate_columns",
        "bad_column_names", "column_names_ok", "wide_format_years",
        "wide_format_months", "no_wide_format", "aggregate_rows",
        "no_aggregate_rows", "footnote_markers"] := by
  have hsub1 : ∀ x ∈ (["duplicate_columns", "no_duplicate_columns"] : List String),
      x ∈ (["duplicate_columns", "no_duplicate_columns", "bad_column_names",
        "column_names_ok", "wide_format_years", "wide_format_months",
        "no_wide_format", "aggregate_rows", "no_aggregate_rows",
        "footnote_markers"] : List String) := by decide
  have hsub2 : ∀ x ∈ (["bad_column_names", "column_names_ok"] : List String),
      x ∈ (["duplicate_columns", "no_duplicate_columns", "bad_column_names",
        "column_names_ok", "wide_format_years", "wide_format_months",
        "no_wide_format", "aggregate_rows", "no_aggregate_rows",
        "footnote_markers"] : List String) := by decide
  have hsub3 : ∀ x ∈ (["wide_format_years", "wide_format_months",
        "no_wide_format"] : List String),
      x ∈ (["duplicate_columns", "no_duplicate_columns", "bad_column_names",
        "column_names_ok", "wide_format_years", "wide_format_months",
        "no_wide_format", "aggregate_rows", "no_aggregate_rows",
        "footnote_markers"] : List String) := by decide
  have hsub4 : ∀ x ∈ (["aggregate_rows", "no_aggregate_rows"] : List String),
      x ∈ (["duplicate_columns", "no_duplicate_columns", "bad_column_names",
        "column_names_ok", "wide_format_years", "wide_format_months",
        "no_wide_format", "aggregate_rows", "no_aggregate_rows",
        "footnote_markers"] : List String) := by decide
  have hsub5 : ∀ x ∈ (["footnote_markers"] : List String),
      x ∈ (["duplicate_columns", "no_duplicate_columns", "bad_column_names",
        "column_names_ok", "wide_format_years", "wide_format_months",
        "no_wide_format", "aggregate_rows", "no_aggregate_rows",
        "footnote_markers"] : List String) := by decide
  intro f hf
  unfold phase2F at hf
  dsimp only at hf
  simp only [List.mem_append] at hf
  rcases hf with (hf | hf) | hf
  · rcases wideApply_mem _ _ f hf with h | h
    · rcases List.mem_append.mp h with h2 | h2
      · rcases List.mem_append.mp h2 with h3 | h3
        · exact Or.inl h3
        · exact Or.inr (hsub1 _ (dupPart_code _ f h3))
      · exact Or.inr (hsub2 _ (badNamesPart_code _ f h2))
    · exact Or.inr (hsub3 _ h)
  · exact Or.inr (hsub4 _ (aggPart_code _ f hf))
  · exact Or.inr (hsub5 _ (fnPart_code _ f hf))

theorem sumPart_code (env : Env) :
    ∀ f ∈ sumPart env,
      f.code ∈ ["summarize_ok", "high_null_rate", "summarize_failed"] := by
  intro f hf
  unfold sumPart at hf
  split at hf
  · rcases List.mem_append.mp hf with h | h
    · simp_all
    · unfold nullRatePart at h
      dsimp only at h
      split at h <;> simp_all
  · simp_all

theorem commaPart_code (env : Env) (names : List String) (pairs : List (String × String)) :
    ∀ f ∈ commaPart env names pairs,
      f.code ∈ ["comma_decimal", "no_comma_decimal"] := by
  intro f hf
  unfold commaPart at hf
  dsimp only at hf
  split at hf <;> split at hf <;> simp_all

theorem datePart_code (env : Env) (names : List String) (pairs : List (String × String)) :
    ∀ f ∈ datePart env names pairs,
      f.code ∈ ["non_iso_date", "iso_dates"] := by
  intro f hf
  unfold datePart at hf
  dsimp only at hf
  split at hf <;> split at hf <;> simp_all

theorem unitsPart_code (env : Env) (names : List String) (pairs : List (String × String)) :
    ∀ f ∈ unitsPart env names pairs,
      f.code ∈ ["units_in_cells", "no_units_in_cells"] := by
  intro f hf
  unfold unitsPart at hf
  dsimp only at hf
  split at hf <;> split at hf <;> simp_all

theorem phPart_code (env : Env) (names : List String) (pairs : List (String × String)) :
    ∀ f ∈ phPart env names pairs,
      f.code ∈ ["placeholder_values", "no_placeholder_values"] := by
  intro f hf
  unfold phPart at hf
  dsimp only at hf
  split at hf <;> split at hf <;> simp_all

theorem numvarPart_code (env : Env) (ctx : Ctx) (pairs : List (String × String)) :
    ∀ f ∈ numvarPart env ctx pairs, f.code ∈ ["numeric_as_varchar"] := by
  intro f hf
  unfold numvarPart at hf
  dsimp only at hf
  split at hf
  · split at hf
    · split at hf <;> simp_all
    · simp_all
  · simp_all

theorem wsPart_code (env : Env) (ctx : Ctx) :
    ∀ f ∈ wsPart env ctx,
      f.code ∈ ["trailing_whitespace_values", "no_trailing_whitespace"] := by
  intro f hf
  unfold wsPart at hf
  dsimp only at hf
  split at hf <;> simp_all

theorem fuzzyPart_code (env : Env) (ctx : Ctx) :
    ∀ f ∈ fuzzyPart env ctx,
      f.code ∈ ["fuzzy_category_values", "no_fuzzy_category_values"] := by
  intro f hf
  unfold fuzzyPart at hf
  dsimp only at hf
  split at hf <;> simp_all

theorem phase3F_code (env : Env) (ctx : Ctx) :
    ∀ f ∈ phase3F env ctx,
      f.code ∈ ["summarize_ok", "high_null_rate", "summarize_failed",
        "varchar_load_failed", "comma_decimal", "no_comma_decimal",
        "non_iso_date", "iso_dates", "units_in_cells", "no_units_in_cells",
        "placeholder_values", "no_placeholder_values", "numeric_as_varchar",
        "trailing_whitespace_values", "no_trailing_whitespace",
        "fuzzy_category_values", "no_fuzzy_category_values"] := by
  have B : List String := []
  intro f hf
  unfold phase3F at hf
  dsimp only at hf
  split at hf
  · rcases List.mem_append.mp hf with h | h
    · exact (by decide : ∀ x ∈ (["summarize_ok", "high_null_rate",
        "summarize_failed"] : List String),
        x ∈ (["summarize_ok", "high_null_rate", "summarize_failed",
        "varchar_load_failed", "comma_decimal", "no_comma_decimal",
        "non_iso_date", "iso_dates", "units_in_cells", "no_units_in_cells",
        "placeholder_values", "no_placeholder_values", "numeric_as_varchar",
        "trailing_whitespace_values", "no_trailing_whitespace",
        "fuzzy_category_values", "no_fuzzy_category_values"] : List String))
        _ (sumPart_code env f h)
    · simp_all
  · simp only [List.mem_append] at hf
    rcases hf with ((((((hf | hf) | hf) | hf) | hf) | hf) | hf) | hf
    · exact (by decide : ∀ x ∈ (["summarize_ok", "high_null_rate",
        "summarize_failed"] : List String),
        x ∈ (["summarize_ok", "high_null_rate", "summarize_failed",
        "varchar_load_failed", "comma_decimal", "no_comma_decimal",
        "non_iso_date", "iso_dates", "units_in_cells", "no_units_in_cells",
        "placeholder_values", "no_placeholder_values", "numeric_as_varchar",
        "trailing_whitespace_values", "no_trailing_whitespace",
        "fuzzy_category_values", "no_fuzzy_category_values"] : List String))
        _ (sumPart_code env f hf)
    · exact (by decide : ∀ x ∈ (["comma_decimal", "no_comma_decimal"] : List String),
        x ∈ (["summarize_ok", "high_null_rate", "summarize_failed",
        "varchar_load_failed", "comma_decimal", "no_comma_decimal",
        "non_iso_date", "iso_dates", "units_in_cells", "no_units_in_cells",
        "placeholder_values", "no_placeholder_values", "numeric_as_varchar",
        "trailing_whitespace_values", "no_trailing_whitespace",
        "fuzzy_category_values", "no_fuzzy_category_values"] : List String))
        _ (commaPart_code _ _ _ f hf)
    · exact (by decide : ∀ x ∈ (["non_iso_date", "iso_dates"] : List String),
        x ∈ (["summarize_ok", "high_null_rate", "summarize_failed",
        "varchar_load_failed", "comma_decimal", "no_comma_decimal",
        "non_iso_date", "iso_dates", "units_in_cells", "no_units_in_cells",
        "placeholder_values", "no_placeholder_values", "numeric_as_varchar",
        "trailing_whitespace_values", "no_trailing_whitespace",
        "fuzzy_category_values", "no_fuzzy_category_values"] : List String))
        _ (datePart_code _ _ _ f hf)
    · exact (by decide : ∀ x ∈ (["units_in_cells", "no_units_in_cells"] : List String),
        x ∈ (["summarize_ok", "high_null_rate", "summarize_failed",
        "varchar_load_failed", "comma_decimal", "no_comma_decimal",
        "non_iso_date", "iso_dates", "units_in_cells", "no_units_in_cells",
        "placeholder_values", "no_placeholder_values", "numeric_as_varchar",
        "trailing_whitespace_values", "no_trailing_whitespace",
        "fuzzy_category_values", "no_fuzzy_category_values"] : List String))
        _ (unitsPart_code _ _ _ f hf)
    · exact (by decide : ∀ x ∈ (["placeholder_values",
        "no_placeholder_values"] : List String),
        x ∈ (["summarize_ok", "high_null_rate", "summarize_failed",
        "varchar_load_failed", "comma_decimal", "no_comma_decimal",
        "non_iso_date", "iso_dates", "units_in_cells", "no_units_in_cells",
        "placeholder_values", "no_placeholder_values", "numeric_as_varchar",
        "trailing_whitespace_values", "no_trailing_whitespace",
        "fuzzy_category_values", "no_fuzzy_category_values"] : List String))
        _ (phPart_code _ _ _ f hf)
    · exact (by decide : ∀ x ∈ (["numeric_as_varchar"] : List String),
        x ∈ (["summarize_ok", "high_null_rate", "summarize_failed",
        "varchar_load_failed", "comma_decimal", "no_comma_decimal",
        "non_iso_date", "iso_dates", "units_in_cells", "no_units_in_cells",
        "placeholder_values", "no_placeholder_values", "numeric_as_varchar",
        "trailing_whitespace_values", "no_trailing_whitespace",
        "fuzzy_category_values", "no_fuzzy_category_values"] : List String))
        _ (numvarPart_code _ _ _ f hf)
    · exact (by decide : ∀ x ∈ (["trailing_whitespace_values",
        "no_trailing_whitespace"] : List String),
        x ∈ (["summarize_ok", "high_null_rate", "summarize_failed",
        "varchar_load_failed", "comma_decimal", "no_comma_decimal",
        "non_iso_date", "iso_dates", "units_in_cells", "no_units_in_cells",
        "placeholder_values", "no_placeholder_values", "numeric_as_varchar",
        "trailing_whitespace_values", "no_trailing_whitespace",
        "fuzzy_category_values", "no_fuzzy_category_values"] : List String))
        _ (wsPart_code _ _ f hf)
    · exact (by decide : ∀ x ∈ (["fuzzy_category_values",
        "no_fuzzy_category_values"] : List String),
        x ∈ (["summarize_ok", "high_null_rate", "summarize_failed",
        "varchar_load_failed", "comma_decimal", "no_comma_decimal",
        "non_iso_date", "iso_dates", "units_in_cells", "no_units_in_cells",
        "placeholder_values", "no_placeholder_values", "numeric_as_varchar",
        "trailing_whitespace_values", "no_trailing_whitespace",
        "fuzzy_category_values", "no_fuzzy_category_values"] : List String))
        _ (fuzzyPart_code _ _ f hf)

theorem phase4F_code (env : Env) (ctx : Ctx) :
    ∀ f ∈ phase4F env ctx,
      f.code ∈ ["no_code_columns", "invalid_reference_codes", "reference_codes_ok"] := by
  intro f hf
  unfold phase4F at hf
  dsimp only at hf
  split at hf
  · simp_all
  · split at hf <;> simp_all

/-! ## The normal (non-blocker) path of `run` -/

theorem run_normal (env : Env) (schema : List (String × String))
    (hnb : ({ source := env.csvPath
              findings := (phase0 env).findings } : QualityReport).has_blockers = false)
    (hdm : env.describeMain = some schema) :
    (CsvValidator.run env).result = some
      { source := env.csvPath
        findings := runFindings env (phase0 env) schema
        dimensions := computeScores (runFindings env (phase0 env) schema) } := by
  unfold CsvValidator.run
  dsimp only
  rw [hnb, hdm]
  simp

theorem wideApply_years (names : List String) (fs : List Finding)
    (hy : 3 ≤ (names.filter isYearHeader).length) :
    (∃ f ∈ wideApply names fs, f.code = "wide_format_years" ∧
      f.severity = Severity.major) ∧
    ∀ f ∈ wideApply names fs, f.code ≠ "no_header" := by
  unfold wideApply
  dsimp only
  rw [if_pos hy]
  constructor
  · refine ⟨_, List.mem_filter.mpr
      ⟨List.mem_append_right _ (List.mem_singleton_self _), by simp⟩, rfl, rfl⟩
  · intro f hf
    exact of_decide_eq_true (List.mem_filter.mp hf).2

theorem wideApply_months (names : List String) (fs : List Finding)
    (hyn : (names.filter isYearHeader).length < 3)
    (hm : 3 ≤ (names.filter isMonthHeader).length) :
    (∃ f ∈ wideApply names fs, f.code = "wide_format_months" ∧
      f.severity = Severity.major) ∧
    ∀ f ∈ wideApply names fs, f.code ≠ "no_header" := by
  unfold wideApply
  dsimp only
  rw [if_neg (by omega), if_pos hm]
  constructor
  · refine ⟨_, List.mem_filter.mpr
      ⟨List.mem_append_right _ (List.mem_singleton_self _), by simp⟩, rfl, rfl⟩
  · intro f hf
    exact of_decide_eq_true (List.mem_filter.mp hf).2

/-- C4: with at least 3 raw headers matching the 4-digit-year pattern, or at
least 3 matching the multilingual month-prefix pattern, the run report
contains the wide-format finding of the branch that fires (years take
precedence, exactly as in `_phase2_columns`) and no `no_header` finding
survives anywhere in the report. -/
theorem c4_wide_format_suppression (env : Env) (schema : List (String × String))
    (hnb : ({ source := env.csvPath
              findings := (phase0 env).findings } : QualityReport).has_blockers = false)
    (hdm : env.describeMain = some schema)
    (hy : 3 ≤ (env.rawHeaders.filter isYearHeader).length ∨
      3 ≤ (env.rawHeaders.filter isMonthHeader).length) :
    ∃ r, (CsvValidator.run env).result = some r ∧
      ((∃ f ∈ r.findings, f.code = "wide_format_years" ∧ f.severity = Severity.major) ∨
       (∃ f ∈ r.findings, f.code = "wide_format_months" ∧ f.severity = Severity.major)) ∧
      (∀ f ∈ r.findings, f.code ≠ "no_header") ∧
      (3 ≤ (env.rawHeaders.filter isYearHeader).length →
        ∃ f ∈ r.findings, f.code = "wide_format_years" ∧ f.severity = Severity.major) ∧
      ((env.rawHeaders.filter isYearHeader).length < 3 →
        3 ≤ (env.rawHeaders.filter isMonthHeader).length →
        ∃ f ∈ r.findings, f.code = "wide_format_months" ∧ f.severity = Severity.major) := by
  have hne : env.rawHeaders ≠ [] := by
    intro h0
    rcases hy with hy | hy <;> (rw [h0] at hy; simp at hy)
  refine ⟨_, run_normal env schema hnb hdm, ?_⟩
  set p0 := phase0 env with hp0
  set ctx := (phase1F env p0 schema).2 with hctx
  set prior := p0.findings ++ (phase1F env p0 schema).1 with hprior
  have hrf : runFindings env p0 schema =
      phase2F env ctx prior ++ phase3F env ctx ++ phase4F env ctx := rfl
  have heff : effNames ctx = env.rawHeaders := by
    have hraw : ctx.rawHeaders = env.rawHeaders := rfl
    unfold effNames
    rw [hraw, if_neg hne]
  have hp2 : phase2F env ctx prior =
      wideApply env.rawHeaders
        (prior ++ dupPart env.rawHeaders ++ badNamesPart env.rawHeaders) ++
      aggPart env ++ fnPart env := by
    unfold phase2F
    rw [heff]
  -- membership transport from the wide block into the whole findings list
  have hmem : ∀ g : Finding,
      g ∈ wideApply env.rawHeaders
        (prior ++ dupPart env.rawHeaders ++ badNamesPart env.rawHeaders) →
      g ∈ runFindings env p0 schema := by
    intro g hg
    have hg2 : g ∈ phase2F env ctx prior := by
      rw [hp2]
      exact List.mem_append_left _ (List.mem_append_left _ hg)
    rw [hrf]
    exact List.mem_append_left _ (List.mem_append_left _ hg2)
  -- the no_header-free property of the whole findings list
  have hfree :
      (∀ f ∈ wideApply env.rawHeaders
        (prior ++ dupPart env.rawHeaders ++ badNamesPart env.rawHeaders),
        f.code ≠ "no_header") →
      ∀ f ∈ runFindings env p0 schema, f.code ≠ "no_header" := by
    intro hwa f hf heq
    rw [hrf, hp2] at hf
    rcases List.mem_append.mp hf with hf | hf
    · rcases List.mem_append.mp hf with hf | hf
      · rcases List.mem_append.mp hf with hf | hf
        · rcases List.mem_append.mp hf with hf | hf
          · exact hwa f hf heq
          · have h := aggPart_code env f hf
            rw [heq] at h
            exact absurd h (by decide)
        · have h := fnPart_code env f hf
          rw [heq] at h
          exact absurd h (by decide)
      · have h := phase3F_code env ctx f hf
        rw [heq] at h
        exact absurd h (by decide)
    · have h := phase4F_code env ctx f hf
      rw [heq] at h
      exact absurd h (by decide)
  by_cases hyy : 3 ≤ (env.rawHeaders.filter isYearHeader).length
  · obtain ⟨⟨g, hg, hgc, hgs⟩, hwa⟩ := wideApply_years env.rawHeaders
      (prior ++ dupPart env.rawHeaders ++ badNamesPart env.rawHeaders) hyy
    refine ⟨Or.inl ⟨g, hmem g hg, hgc, hgs⟩, hfree hwa, ?_, ?_⟩
    · intro _
      exact ⟨g, hmem g hg, hgc, hgs⟩
    · intro hlt _
      omega
  · have hm : 3 ≤ (env.rawHeaders.filter isMonthHeader).length := by
      rcases hy with hy | hy
      · exact absurd hy hyy
      · exact hy
    obtain ⟨⟨g, hg, hgc, hgs⟩, hwa⟩ := wideApply_months env.rawHeaders
      (prior ++ dupPart env.rawHeaders ++ badNamesPart env.rawHeaders)
      (by omega) hm
    refine ⟨Or.inr ⟨g, hmem g hg, hgc, hgs⟩, hfree hwa, ?_, ?_⟩
    · intro hyy2
      exact absurd hyy2 hyy
    · intro _ _
      exact ⟨g, hmem g hg, hgc, hgs⟩

def c4Schema : List (String × String) :=
  [("id", "BIGINT"), ("column1", "BIGINT"), ("column2", "BIGINT"),
   ("column3", "BIGINT"), ("column4", "BIGINT")]

/-- Scenario A: header `id,2019,2020,2021,2022`, one data row; the engine
sniff misreads the year header row as headerless. -/
def c4Env : Env :=
  { baseEnv with
    rawHeaders := ["id", "2019", "2020", "2021", "2022"]
    describeMain := some c4Schema
    strictParse := some ⟨1, 5⟩
    sniff := some ⟨",", false⟩
    sampleGrid := [[some "1", some "10", some "11", some "12", some "13"]]
    typedGrid := [[some "1", some "10", some "11", some "12", some "13"]] }

/-- Witness for C4 at Scenario A. -/
theorem c4_wide_format_suppression_witness :
    ∃ r, (CsvValidator.run c4Env).result = some r ∧
      ((∃ f ∈ r.findings, f.code = "wide_format_years" ∧ f.severity = Severity.major) ∨
       (∃ f ∈ r.findings, f.code = "wide_format_months" ∧ f.severity = Severity.major)) ∧
      (∀ f ∈ r.findings, f.code ≠ "no_header") ∧
      (3 ≤ (c4Env.rawHeaders.filter isYearHeader).length →
        ∃ f ∈ r.findings, f.code = "wide_format_years" ∧ f.severity = Severity.major) ∧
      ((c4Env.rawHeaders.filter isYearHeader).length < 3 →
        3 ≤ (c4Env.rawHeaders.filter isMonthHeader).length →
        ∃ f ∈ r.findings, f.code = "wide_format_months" ∧ f.severity = Severity.major) :=
  c4_wide_format_suppression c4Env c4Schema (by decide) rfl (by decide)

/-! ## Lemmas on the detector combinators -/

theorem mem_firstDedupAux {α : Type} [DecidableEq α] (l : List α) :
    ∀ (seen : List α) (a : α), a ∈ firstDedupAux seen l ↔ a ∈ l ∧ a ∉ seen := by
  induction l with
  | nil => intro seen a; simp [firstDedupAux]
  | cons b t ih =>
    intro seen a
    unfold firstDedupAux
    split
    · rename_i hb
      rw [ih]
      constructor
      · rintro ⟨h1, h2⟩
        exact ⟨List.mem_cons_of_mem _ h1, h2⟩
      · rintro ⟨h1, h2⟩
        rcases List.mem_cons.mp h1 with rfl | h1
        · exact absurd hb h2
        · exact ⟨h1, h2⟩
    · rename_i hb
      simp only [List.mem_cons, ih]
      constructor
      · rintro (rfl | ⟨h1, h2⟩)
        · exact ⟨Or.inl rfl, hb⟩
        · exact ⟨Or.inr h1, fun hs => h2 (Or.inr hs)⟩
      · rintro ⟨rfl | h1, h2⟩
        · exact Or.inl rfl
        · by_cases hab : a = b
          · exact Or.inl hab
          · exact Or.inr ⟨h1, fun hs => hs.elim hab h2⟩

theorem mem_firstDedup {α : Type} [DecidableEq α] (l : List α) (a : α) :
    a ∈ firstDedup l ↔ a ∈ l := by
  unfold firstDedup
  rw [mem_firstDedupAux]
  simp

theorem length_insertBy {α : Type} (le : α → α → Bool) (a : α) (l : List α) :
    (insertBy le a l).length = l.length + 1 := by
  induction l with
  | nil => rfl
  | cons b t ih =>
    unfold insertBy
    split <;> simp_all

theorem length_sortByLe {α : Type} (le : α → α → Bool) (l : List α) :
    (sortByLe le l).length = l.length := by
  induction l with
  | nil => rfl
  | cons a t ih =>
    unfold sortByLe
    rw [length_insertBy, ih]
    rfl

theorem hitCols_count (names : List String) (pairs : List (String × String))
    (p : String → Bool) (thr : Nat) (c : String)
    (hc : c ∈ hitCols names pairs p thr) : thr ≤ colMatchCount pairs p c :=
  of_decide_eq_true (List.mem_filter.mp hc).2

theorem mem_hitCols (names : List String) (pairs : List (String × String))
    (p : String → Bool) (thr : Nat) (c : String) (hcn : c ∈ names)
    (hcount : thr ≤ colMatchCount pairs p c) : c ∈ hitCols names pairs p thr :=
  List.mem_filter.mpr ⟨(mem_firstDedup names c).mpr hcn, by simpa using hcount⟩

theorem commaPart_inv (env : Env) (names : List String)
    (pairs : List (String × String)) (f : Finding)
    (hf : f ∈ commaPart env names pairs) (hc : f.code = "comma_decimal") :
    ∃ c, 3 ≤ colMatchCount pairs isCommaDecimal c := by
  by_cases hcf : env.commaFails
  · simp only [commaPart, hcf, if_true] at hf
    simp only [ne_eq, not_true_eq_false, if_false, reduceIte] at hf
    simp_all
  · simp only [commaPart, hcf, if_false, Bool.false_eq_true] at hf
    split at hf
    · rename_i hne
      obtain ⟨c, hcm⟩ := List.exists_mem_of_ne_nil _ hne
      exact ⟨c, hitCols_count _ _ _ _ _ hcm⟩
    · simp_all

theorem datePart_inv (env : Env) (names : List String)
    (pairs : List (String × String)) (f : Finding)
    (hf : f ∈ datePart env names pairs) (hc : f.code = "non_iso_date") :
    ∃ c, 2 ≤ colMatchCount pairs isNonIsoDate c := by
  by_cases hcf : env.dateFails
  · simp only [datePart, hcf, if_true] at hf
    simp only [ne_eq, not_true_eq_false, if_false, reduceIte] at hf
    simp_all
  · simp only [datePart, hcf, if_false, Bool.false_eq_true] at hf
    split at hf
    · rename_i hne
      obtain ⟨c, hcm⟩ := List.exists_mem_of_ne_nil _ hne
      exact ⟨c, hitCols_count _ _ _ _ _ hcm⟩
    · simp_all

theorem unitsPart_inv (env : Env) (names : List String)
    (pairs : List (String × String)) (f : Finding)
    (hf : f ∈ unitsPart env names pairs) (hc : f.code = "units_in_cells") :
    ∃ c, 2 ≤ colMatchCount pairs isUnitValue c := by
  by_cases hcf : env.unitsFails
  · simp only [unitsPart, hcf, if_true] at hf
    simp only [ne_eq, not_true_eq_false, if_false, reduceIte] at hf
    simp_all
  · simp only [unitsPart, hcf, if_false, Bool.false_eq_true] at hf
    split at hf
    · rename_i hne
      obtain ⟨c, hcm⟩ := List.exists_mem_of_ne_nil _ hne
      exact ⟨c, hitCols_count _ _ _ _ _ hcm⟩
    · simp_all

theorem numvarPart_inv (env : Env) (ctx : Ctx)
    (pairs : List (String × String)) (f : Finding)
    (hf : f ∈ numvarPart env ctx pairs) (_hc : f.code = "numeric_as_varchar") :
    ∃ c, 5 ≤ colMatchCount pairs isThousandsGrouped c := by
  unfold numvarPart at hf
  dsimp only at hf
  split at hf
  · by_cases hcf : env.numvarFails
    · simp only [hcf, if_true] at hf
      split at hf <;> simp_all
    · simp only [hcf, if_false, Bool.false_eq_true] at hf
      split at hf
      · rename_i hne
        obtain ⟨c, hcm⟩ := List.exists_mem_of_ne_nil _ hne
        exact ⟨c, hitCols_count _ _ _ _ _ hcm⟩
      · simp_all
  · simp_all

/-- Unfolded shape of phase 3 when the all-varchar load succeeds. -/
theorem phase3F_structure (env : Env) (ctx : Ctx) (hv : env.varcharLoadOk = true) :
    phase3F env ctx =
      sumPart env ++
      commaPart env (ctx.duckCols.map Prod.fst)
        (unpivot (ctx.duckCols.map Prod.fst)
          (env.sampleGrid.take env.sampleRowsCap)) ++
      datePart env (ctx.duckCols.map Prod.fst)
        (unpivot (ctx.duckCols.map Prod.fst)
          (env.sampleGrid.take (min env.sampleRowsCap 500))) ++
      unitsPart env (ctx.duckCols.map Prod.fst)
        (unpivot (ctx.duckCols.map Prod.fst)
          (env.sampleGrid.take (min env.sampleRowsCap 500))) ++
      phPart env (ctx.duckCols.map Prod.fst)
        (unpivot (ctx.duckCols.map Prod.fst)
          (env.sampleGrid.take env.sampleRowsCap)) ++
      numvarPart env ctx
        (unpivot (ctx.duckCols.map Prod.fst) (env.sampleGrid.take 200)) ++
      wsPart env ctx ++ fuzzyPart env ctx := by
  unfold phase3F
  dsimp only
  rw [hv]
  rfl

/-- Every finding of the run whose code belongs to a phase-3 detector comes
from phase 3. -/
theorem runFindings_detector_src (env : Env) (schema : List (String × String))
    (f : Finding) (hf : f ∈ runFindings env (phase0 env) schema)
    (hc : f.code ∈ ["comma_decimal", "non_iso_date", "units_in_cells",
      "numeric_as_varchar", "placeholder_values"]) :
    f ∈ phase3F env (phase1F env (phase0 env) schema).2 := by
  simp only [List.mem_cons, List.not_mem_nil, or_false] at hc
  unfold runFindings at hf
  dsimp only at hf
  rcases List.mem_append.mp hf with hf | hf
  · rcases List.mem_append.mp hf with hf | hf
    · rcases phase2F_mem _ _ _ f hf with h | h
      · rcases List.mem_append.mp h with h | h
        · have h0 := phase0_code env f h
          rcases hc with hc | hc | hc | hc | hc <;> (rw [hc] at h0; exact absurd h0 (by decide))
        · have h1 := phase1F_code env (phase0 env) schema f h
          rcases hc with hc | hc | hc | hc | hc <;> (rw [hc] at h1; exact absurd h1 (by decide))
      · rcases hc with hc | hc | hc | hc | hc <;> (rw [hc] at h; exact absurd h (by decide))
    · exact hf
  · have h4 := phase4F_code env _ f hf
    rcases hc with hc | hc | hc | hc | hc <;> (rw [hc] at h4; exact absurd h4 (by decide))

/-- Inside phase 3, each detector code identifies its detector. -/
theorem phase3F_detector_inv (env : Env) (ctx : Ctx) (f : Finding)
    (hf : f ∈ phase3F env ctx) :
    (f.code = "comma_decimal" →
      f ∈ commaPart env (ctx.duckCols.map Prod.fst)
        (unpivot (ctx.duckCols.map Prod.fst)
          (env.sampleGrid.take env.sampleRowsCap))) ∧
    (f.code = "non_iso_date" →
      f ∈ datePart env (ctx.duckCols.map Prod.fst)
        (unpivot (ctx.duckCols.map Prod.fst)
          (env.sampleGrid.take (min env.sampleRowsCap 500)))) ∧
    (f.code = "units_in_cells" →
      f ∈ unitsPart env (ctx.duckCols.map Prod.fst)
        (unpivot (ctx.duckCols.map Prod.fst)
          (env.sampleGrid.take (min env.sampleRowsCap 500)))) ∧
    (f.code = "numeric_as_varchar" →
      f ∈ numvarPart env ctx
        (unpivot (ctx.duckCols.map Prod.fst) (env.sampleGrid.take 200))) := by
  unfold phase3F at hf
  dsimp only at hf
  split at hf
  · refine ⟨?_, ?_, ?_, ?_⟩ <;>
      (intro hc
       rcases List.mem_append.mp hf with h | h
       · have hs := sumPart_code env f h
         rw [hc] at hs
         exact absurd hs (by decide)
       · simp_all)
  · simp only [List.mem_append] at hf
    rcases hf with ((((((hf | hf) | hf) | hf) | hf) | hf) | hf) | hf
    · refine ⟨?_, ?_, ?_, ?_⟩ <;>
        (intro hc
         have hs := sumPart_code env f hf
         rw [hc] at hs
         exact absurd hs (by decide))
    · refine ⟨fun _ => hf, ?_, ?_, ?_⟩ <;>
        (intro hc
         have hs := commaPart_code _ _ _ f hf
         rw [hc] at hs
         exact absurd hs (by decide))
    · refine ⟨?_, fun _ => hf, ?_, ?_⟩ <;> first
      | (intro hc
         have hs := datePart_code _ _ _ f hf
         rw [hc] at hs
         exact absurd hs (by decide))
    · refine ⟨?_, ?_, fun _ => hf, ?_⟩ <;> first
      | (intro hc
         have hs := unitsPart_code _ _ _ f hf
         rw [hc] at hs
         exact absurd hs (by decide))
    · refine ⟨?_, ?_, ?_, ?_⟩ <;>
        (intro hc
         have hs := phPart_code _ _ _ f hf
         rw [hc] at hs
         exact absurd hs (by decide))
    · refine ⟨?_, ?_, ?_, fun _ => hf⟩ <;> first
      | (intro hc
         have hs := numvarPart_code _ _ _ f hf
         rw [hc] at hs
         exact absurd hs (by decide))
    · refine ⟨?_, ?_, ?_, ?_⟩ <;>
        (intro hc
         have hs := wsPart_code _ _ f hf
         rw [hc] at hs
         exact absurd hs (by decide))
    · refine ⟨?_, ?_, ?_, ?_⟩ <;>
        (intro hc
         have hs := fuzzyPart_code _ _ f hf
         rw [hc] at hs
         exact absurd hs (by decide))

/-- The comma-decimal detector fires (emitting a major finding that lists
the flagged columns in its message) whenever some schema column has at
least 3 matching sampled values. -/
theorem commaPart_fires (env : Env) (names : List String)
    (pairs : List (String × String)) (hcf : env.commaFails = false)
    (c : String) (hcn : c ∈ names)
    (hcount : 3 ≤ colMatchCount pairs isCommaDecimal c) :
    c ∈ hitCols names pairs isCommaDecimal 3 ∧
    majorF P3 "comma_decimal"
      ("Comma decimal separator in " ++
        toString (hitCols names pairs isCommaDecimal 3).length ++
        " column(s): " ++ renderList (hitCols names pairs isCommaDecimal 3))
      (exampleDetail pairs isCommaDecimal (hitCols names pairs isCommaDecimal 3))
      "replace the decimal comma by a dot in numeric fields before publishing"
      ∈ commaPart env names pairs := by
  have hmem := mem_hitCols names pairs isCommaDecimal 3 c hcn hcount
  have hne : hitCols names pairs isCommaDecimal 3 ≠ [] := by
    intro h0
    rw [h0] at hmem
    exact absurd hmem (List.not_mem_nil c)
  refine ⟨hmem, ?_⟩
  unfold commaPart
  dsimp only
  rw [hcf]
  simp only [Bool.false_eq_true, if_false, reduceIte]
  rw [if_pos (by simpa using hne)]
  exact List.mem_singleton_self _

/-- The placeholder detector fires as soon as one sampled value of some
schema column matches the sentinel set. -/
theorem phPart_fires (env : Env) (names : List String)
    (pairs : List (String × String)) (hpf : env.phFails = false)
    (c : String) (hcn : c ∈ names)
    (hcount : 1 ≤ colMatchCount pairs isPlaceholder c) :
    ∃ f ∈ phPart env names pairs, f.code = "placeholder_values" ∧
      f.severity = Severity.major := by
  have hmem := mem_hitCols names pairs isPlaceholder 1 c hcn hcount
  have hlen : 0 < (hitCols names pairs isPlaceholder 1).length :=
    List.length_pos_of_mem hmem
  have hne : (sortByLe (fun a b =>
      colMatchCount pairs isPlaceholder b ≤ colMatchCount pairs isPlaceholder a)
      (hitCols names pairs isPlaceholder 1)).take 10 ≠ [] := by
    intro h0
    have hl := congrArg List.length h0
    rw [List.length_take, length_sortByLe] at hl
    simp only [List.length_nil] at hl
    omega
  unfold phPart
  dsimp only
  rw [hpf]
  simp only [Bool.false_eq_true, if_false, reduceIte]
  rw [if_pos (by simpa using hne)]
  exact ⟨_, List.mem_singleton_self _, rfl, rfl⟩

theorem mem_runFindings_of_phase3 (env : Env) (schema : List (String × String))
    (f : Finding) (h3 : f ∈ phase3F env (phase1F env (phase0 env) schema).2) :
    f ∈ runFindings env (phase0 env) schema := by
  unfold runFindings
  dsimp only
  exact List.mem_append_left _ (List.mem_append_right _ h3)

/-- C5 (amended): on the normal path, the comma-decimal, non-ISO-date,
units-in-cells and numeric-as-varchar detectors flag only with at least
3, 2, 2 and 5 matching occurrences in some column respectively — all at
least 2 — but the placeholder/sentinel detector emits its finding already
when a single sampled value of some column matches. -/
theorem c5_detector_thresholds (env : Env) (schema : List (String × String))
    (hnb : ({ source := env.csvPath
              findings := (phase0 env).findings } : QualityReport).has_blockers = false)
    (hdm : env.describeMain = some schema) :
    ∃ r, (CsvValidator.run env).result = some r ∧
      ((∃ f ∈ r.findings, f.code = "comma_decimal") →
        ∃ c, 3 ≤ colMatchCount (unpivot (schema.map Prod.fst)
          (env.sampleGrid.take env.sampleRowsCap)) isCommaDecimal c) ∧
      ((∃ f ∈ r.findings, f.code = "non_iso_date") →
        ∃ c, 2 ≤ colMatchCount (unpivot (schema.map Prod.fst)
          (env.sampleGrid.take (min env.sampleRowsCap 500))) isNonIsoDate c) ∧
      ((∃ f ∈ r.findings, f.code = "units_in_cells") →
        ∃ c, 2 ≤ colMatchCount (unpivot (schema.map Prod.fst)
          (env.sampleGrid.take (min env.sampleRowsCap 500))) isUnitValue c) ∧
      ((∃ f ∈ r.findings, f.code = "numeric_as_varchar") →
        ∃ c, 5 ≤ colMatchCount (unpivot (schema.map Prod.fst)
          (env.sampleGrid.take 200)) isThousandsGrouped c) ∧
      (env.phFails = false → env.varcharLoadOk = true →
        ∀ c ∈ schema.map Prod.fst,
          1 ≤ colMatchCount (unpivot (schema.map Prod.fst)
            (env.sampleGrid.take env.sampleRowsCap)) isPlaceholder c →
          ∃ f ∈ r.findings, f.code = "placeholder_values" ∧
            f.severity = Severity.major) := by
  refine ⟨_, run_normal env schema hnb hdm, ?_, ?_, ?_, ?_, ?_⟩
  · rintro ⟨f, hf, hc⟩
    have h3 := runFindings_detector_src env schema f hf (by simp [hc])
    exact commaPart_inv env _ _ f ((phase3F_detector_inv env _ f h3).1 hc) hc
  · rintro ⟨f, hf, hc⟩
    have h3 := runFindings_detector_src env schema f hf (by simp [hc])
    exact datePart_inv env _ _ f ((phase3F_detector_inv env _ f h3).2.1 hc) hc
  · rintro ⟨f, hf, hc⟩
    have h3 := runFindings_detector_src env schema f hf (by simp [hc])
    exact unitsPart_inv env _ _ f ((phase3F_detector_inv env _ f h3).2.2.1 hc) hc
  · rintro ⟨f, hf, hc⟩
    have h3 := runFindings_detector_src env schema f hf (by simp [hc])
    exact numvarPart_inv env _ _ f ((phase3F_detector_inv env _ f h3).2.2.2 hc) hc
  · intro hpf hv c hcn hcount
    obtain ⟨f, hfm, hfc, hfs⟩ :=
      phPart_fires env (schema.map Prod.fst)
        (unpivot (schema.map Prod.fst)
          (env.sampleGrid.take env.sampleRowsCap)) hpf c hcn hcount
    have h3 : f ∈ phase3F env (phase1F env (phase0 env) schema).2 := by
      rw [phase3F_structure env _ hv]
      exact List.mem_append_left _ (List.mem_append_left _
        (List.mem_append_left _ (List.mem_append_right _ hfm)))
    exact ⟨f, mem_runFindings_of_phase3 env schema f h3, hfc, hfs⟩

/-- C6 (amended): a value of the plain digits-comma-digits shape (such as
"1234,56") occurring at least 3 times in a sampled column triggers a major
`comma_decimal` finding whose message lists the flagged columns, among
which that column occurs; the Scenario-B value "1.234,56" does not match
the rule (see the counterexample). -/
theorem c6_comma_decimal_fires (env : Env) (schema : List (String × String))
    (hnb : ({ source := env.csvPath
              findings := (phase0 env).findings } : QualityReport).has_blockers = false)
    (hdm : env.describeMain = some schema) (hcf : env.commaFails = false)
    (hv : env.varcharLoadOk = true) (c : String)
    (hcn : c ∈ schema.map Prod.fst)
    (hcount : 3 ≤ colMatchCount (unpivot (schema.map Prod.fst)
      (env.sampleGrid.take env.sampleRowsCap)) isCommaDecimal c) :
    ∃ r, (CsvValidator.run env).result = some r ∧
      c ∈ hitCols (schema.map Prod.fst)
        (unpivot (schema.map Prod.fst) (env.sampleGrid.take env.sampleRowsCap))
        isCommaDecimal 3 ∧
      ∃ f ∈ r.findings, f.code = "comma_decimal" ∧
        f.severity = Severity.major ∧
        f.message = "Comma decimal separator in " ++
          toString (hitCols (schema.map Prod.fst)
            (unpivot (schema.map Prod.fst)
              (env.sampleGrid.take env.sampleRowsCap)) isCommaDecimal 3).length ++
          " column(s): " ++
          renderList (hitCols (schema.map Prod.fst)
            (unpivot (schema.map Prod.fst)
              (env.sampleGrid.take env.sampleRowsCap)) isCommaDecimal 3) := by
  obtain ⟨hmem, hfmem⟩ :=
    commaPart_fires env (schema.map Prod.fst)
      (unpivot (schema.map Prod.fst) (env.sampleGrid.take env.sampleRowsCap))
      hcf c hcn hcount
  refine ⟨_, run_normal env schema hnb hdm, hmem, ?_⟩
  exact ⟨_, mem_runFindings_of_phase3 env schema _ (by
    rw [phase3F_structure env _ hv]
    exact List.mem_append_left _ (List.mem_append_left _
      (List.mem_append_left _ (List.mem_append_left _
        (List.mem_append_left _ (List.mem_append_left _
          (List.mem_append_right _ hfmem))))))), rfl, rfl, rfl⟩

def baseSchema : List (String × String) := [("id", "BIGINT"), ("importo", "VARCHAR")]

def c5Schema : List (String × String) := [("id", "BIGINT"), ("note", "VARCHAR")]

/-- A run whose `note` column contains exactly one placeholder value. -/
def c5Env : Env :=
  { baseEnv with
    describeMain := some c5Schema
    rawHeaders := ["id", "note"]
    sampleGrid := [[some "1", some "n/a"], [some "2", some "testo"],
      [some "3", some "altro"]]
    typedGrid := [[some "1", some "n/a"], [some "2", some "testo"],
      [some "3", some "altro"]] }

/-- Counterexample to C5 as stated: the `note` column matches the
placeholder rule exactly once, yet the placeholder detector emits a major
`placeholder_values` finding (its SQL `HAVING COUNT(*) > 0` threshold is 1,
not 2-5). -/
theorem c5_placeholder_single_occurrence :
    colMatchCount (unpivot ["id", "note"]
      (c5Env.sampleGrid.take c5Env.sampleRowsCap)) isPlaceholder "note" = 1 ∧
    (CsvValidator.run c5Env).result.map
      (fun r => r.findings.any (fun f =>
        f.code == "placeholder_values" && f.severity == Severity.major)) =
      some true :=
  ⟨by decide, by rfl⟩

/-- Witness for the amended C5 at the concrete single-placeholder run. -/
theorem c5_detector_thresholds_witness :
    ∃ r, (CsvValidator.run c5Env).result = some r ∧
      ((∃ f ∈ r.findings, f.code = "comma_decimal") →
        ∃ c, 3 ≤ colMatchCount (unpivot (c5Schema.map Prod.fst)
          (c5Env.sampleGrid.take c5Env.sampleRowsCap)) isCommaDecimal c) ∧
      ((∃ f ∈ r.findings, f.code = "non_iso_date") →
        ∃ c, 2 ≤ colMatchCount (unpivot (c5Schema.map Prod.fst)
          (c5Env.sampleGrid.take (min c5Env.sampleRowsCap 500))) isNonIsoDate c) ∧
      ((∃ f ∈ r.findings, f.code = "units_in_cells") →
        ∃ c, 2 ≤ colMatchCount (unpivot (c5Schema.map Prod.fst)
          (c5Env.sampleGrid.take (min c5Env.sampleRowsCap 500))) isUnitValue c) ∧
      ((∃ f ∈ r.findings, f.code = "numeric_as_varchar") →
        ∃ c, 5 ≤ colMatchCount (unpivot (c5Schema.map Prod.fst)
          (c5Env.sampleGrid.take 200)) isThousandsGrouped c) ∧
      (c5Env.phFails = false → c5Env.varcharLoadOk = true →
        ∀ c ∈ c5Schema.map Prod.fst,
          1 ≤ colMatchCount (unpivot (c5Schema.map Prod.fst)
            (c5Env.sampleGrid.take c5Env.sampleRowsCap)) isPlaceholder c →
          ∃ f ∈ r.findings, f.code = "placeholder_values" ∧
            f.severity = Severity.major) :=
  c5_detector_thresholds c5Env c5Schema (by decide) rfl

/-- A run whose `importo` column holds "1.234,56" three times. -/
def c6Env : Env :=
  { baseEnv with
    sampleGrid := [[some "1", some "1.234,56"], [some "2", some "1.234,56"],
      [some "3", some "1.234,56"]]
    typedGrid := [[some "1", some "1.234,56"], [some "2", some "1.234,56"],
      [some "3", some "1.234,56"]] }

/-- Counterexample to C6 as stated: the `importo` column contains
"1.234,56" three times, but that value fails the digits-comma-digits rule
(the thousands dot is not a digit), so no `comma_decimal` finding is
produced anywhere in the run. -/
theorem c6_thousands_comma_not_flagged :
    colMatchCount (unpivot ["id", "importo"]
      (c6Env.sampleGrid.take c6Env.sampleRowsCap))
      (fun v => v == "1.234,56") "importo" = 3 ∧
    isCommaDecimal "1.234,56" = false ∧
    (CsvValidator.run c6Env).result.map
      (fun r => r.findings.all (fun f => !(f.code == "comma_decimal"))) =
      some true :=
  ⟨by decide, by decide, by rfl⟩

/-- A run whose `importo` column holds the plain comma-decimal "1234,56"
three times. -/
def c6GoodEnv : Env :=
  { baseEnv with
    sampleGrid := [[some "1", some "1234,56"], [some "2", some "1234,56"],
      [some "3", some "1234,56"]]
    typedGrid := [[some "1", some "1234,56"], [some "2", some "1234,56"],
      [some "3", some "1234,56"]] }

/-- Witness for the amended C6 at the concrete "1234,56" run. -/
theorem c6_comma_decimal_fires_witness :
    ∃ r, (CsvValidator.run c6GoodEnv).result = some r ∧
      "importo" ∈ hitCols (baseSchema.map Prod.fst)
        (unpivot (baseSchema.map Prod.fst)
          (c6GoodEnv.sampleGrid.take c6GoodEnv.sampleRowsCap)) isCommaDecimal 3 ∧
      ∃ f ∈ r.findings, f.code = "comma_decimal" ∧
        f.severity = Severity.major ∧
        f.message = "Comma decimal separator in " ++
          toString (hitCols (baseSchema.map Prod.fst)
            (unpivot (baseSchema.map Prod.fst)
              (c6GoodEnv.sampleGrid.take c6GoodEnv.sampleRowsCap))
            isCommaDecimal 3).length ++
          " column(s): " ++
          renderList (hitCols (baseSchema.map Prod.fst)
            (unpivot (baseSchema.map Prod.fst)
              (c6GoodEnv.sampleGrid.take c6GoodEnv.sampleRowsCap))
            isCommaDecimal 3) :=
  c6_comma_decimal_fires c6GoodEnv baseSchema (by decide) rfl rfl rfl
    "importo" (by decide) (by decide)
